import Mathlib

/-!
# readgps: record decoding and delta checking

A shallow embedding of `readgps.c`: the 22-character time string read from the
DOR card, its decoding (`gps_to_secs`, the tick loop, the quality switch) and
the body of the polling loop of `main`, which keeps the previous tick and the
previous GPS second and checks the differences.

Conventions of the embedding:

* a `char` of `tsbuf` is the integer the C expression `tsbuf[i]` has
  (`-128..127` where `char` is signed, `0..255` where it is unsigned);
  `(unsigned char) c` is `c mod 256`;
* `unsigned long long` is a natural number below `2^64`, every operation
  reduced `% 2^64` explicitly;
* `int` and `long long` values are integers; `gps_to_secs` stays inside the
  32-bit range for every record (`gps_to_secs_int_range`), `tscount` is not
  bounded (a session would need `2^31` samples to reach the bound);
* locals that `main` declares without a value (`tlast`, `last_t`) are
  arguments of the initial state.
-/

namespace ReadGps

/-! ## Constants -/

/-- Length of a time string: `#define TSBUFLEN 22`. -/
def TSBUFLEN : Nat := 22

/-- Start-of-header character: `#define SOH 1`. -/
def SOH : Int := 1

/-- Field separator: `#define COL ':'`. -/
def COL : Int := 58

/-- Index of the time-quality character: `#define QUALPOS 13`. -/
def QUALPOS : Nat := 13

/-- Expected tick difference: `#define WANT_DT 20000000ULL`. -/
def WANT_DT : Nat := 20000000

/-- Number of values of an `unsigned long long`, `2^64`. -/
def U64 : Nat := 18446744073709551616

/-- The character `'0'`. -/
def CH0 : Int := 48

/-! ## Records -/

/-- The buffer `char tsbuf[TSBUFLEN]` after a full read: 22 `char` values. -/
structure Record where
  bytes : List Int
  len : bytes.length = TSBUFLEN
  range : ∀ c ∈ bytes, -128 ≤ c ∧ c ≤ 255

/-- The C expression `tsbuf[i]`. -/
def Record.get (r : Record) (i : Nat) : Int := r.bytes.getD i 0

/-- The C conversion `(unsigned char) c`. -/
def ucharOf (c : Int) : Nat := (c % 256).toNat

/-- Unsigned 64-bit subtraction `a - b`. -/
def u64sub (a b : Nat) : Nat := (a + (U64 - b % U64)) % U64

/-! ## Decoding -/

/-- The function `gps_to_secs`: seconds since day one of the year. -/
def gps_to_secs (gps : Record) : Int :=
  ((gps.get 1 - CH0) * 100 + (gps.get 2 - CH0) * 10 + (gps.get 3 - CH0) - 1) * 86400
    + ((gps.get 5 - CH0) * 10 + (gps.get 6 - CH0)) * 3600
    + ((gps.get 8 - CH0) * 10 + (gps.get 9 - CH0)) * 60
    + (gps.get 11 - CH0) * 10 + (gps.get 12 - CH0)

/-- Indices visited by `for(i=QUALPOS+1;i<TSBUFLEN;i++)`. -/
def tickIndices : List Nat := List.range' (QUALPOS + 1) (TSBUFLEN - (QUALPOS + 1))

/-- One pass of the tick loop body: `t <<= 8; t |= (unsigned char) tsbuf[i];`. -/
def tickStep (tsbuf : Record) (t : Nat) (i : Nat) : Nat :=
  ((t <<< 8) % U64) ||| ucharOf (tsbuf.get i)

/-- The tick loop of `main`, started from `t = 0ULL`. -/
def decodeTick (tsbuf : Record) : Nat :=
  tickIndices.foldl (tickStep tsbuf) 0

/-- The time-quality classes printed by the `switch` on `tsbuf[QUALPOS]`. -/
inductive Quality where
  | exclnt
  | vgood
  | good
  | fair
  | poor
  | unknown
  deriving DecidableEq, Repr

/-- The `switch(tsbuf[QUALPOS])` of `main`. -/
def classify (c : Int) : Quality :=
  if c = 32 then Quality.exclnt
  else if c = 46 then Quality.vgood
  else if c = 42 then Quality.good
  else if c = 35 then Quality.fair
  else if c = 63 then Quality.poor
  else Quality.unknown

/-- The format test of `main`:
`tsbuf[0] != SOH || tsbuf[4] != COL || tsbuf[7] != COL || tsbuf[10] != COL`. -/
def badFormat (tsbuf : Record) : Bool :=
  decide (tsbuf.get 0 ≠ SOH) || decide (tsbuf.get 4 ≠ COL)
    || decide (tsbuf.get 7 ≠ COL) || decide (tsbuf.get 10 ≠ COL)

/-! ## The polling loop -/

/-- Command-line switches of `main` that the loop body reads. -/
structure Config where
  dodiff : Bool
  oneshot : Bool
  skipdt : Int
  dodt : Bool
  flaggps : Bool
  doflag : Bool

/-- Variables of `main` (and the global `die`) that live across iterations. -/
structure State where
  tscount : Int
  tlast : Nat
  last_t : Int
  had_t : Bool
  had_bad_dt : Bool
  die : Bool

/-- What one iteration prints and decides. -/
structure Report where
  formatErr : Bool
  quality : Quality
  t : Nat
  dt : Nat
  dtShown : Bool
  badDT : Bool
  dieSet : Bool
  this_t : Int
  gpsErr : Bool

/-- State at the first iteration: `tscount = 0`, `had_t = 0`, `had_bad_dt = 0`,
`die = 0`; `tlast` and `last_t` have no initial value in `main`, so the values
they happen to hold are the arguments `g` and `l`. -/
def fresh (g : Nat) (l : Int) : State :=
  { tscount := 0, tlast := g, last_t := l, had_t := false, had_bad_dt := false, die := false }

/-- Condition of `if((doflag || dodt) && tscount > skipdt && dt != WANT_DT)`. -/
def flagCond (cfg : Config) (st : State) (dt : Nat) : Bool :=
  (cfg.doflag || cfg.dodt) && decide (st.tscount > cfg.skipdt) && decide (dt ≠ WANT_DT)

/-- Condition of `if(dodt && tscount > skipdt && dt != WANT_DT)`. -/
def dieCond (cfg : Config) (st : State) (dt : Nat) : Bool :=
  cfg.dodt && decide (st.tscount > cfg.skipdt) && decide (dt ≠ WANT_DT)

/-- The GPS check of `main`: under
`if(flaggps && had_t && tscount > skipdt && this_t != 0)` the difference
`lldt = this_t - last_t` is compared with 1. The result is true when the error
is printed and `had_bad_dt = 1` is executed. -/
def gpsCond (cfg : Config) (st : State) (this_t : Int) : Bool :=
  if cfg.flaggps && st.had_t && decide (st.tscount > cfg.skipdt) && decide (this_t ≠ 0) then
    decide (this_t - st.last_t ≠ 1)
  else false

/-- Value of `had_bad_dt` after the GPS check, `hb` being its value before. -/
def gpsCheck (cfg : Config) (st : State) (hb : Bool) (this_t : Int) : Bool :=
  if gpsCond cfg st this_t then true else hb

/-- One iteration of the `while(1)` loop of `main` on a full read `tsbuf`. -/
def step (cfg : Config) (st : State) (tsbuf : Record) : State × Report :=
  let t := decodeTick tsbuf
  let dt := u64sub t st.tlast
  let hb1 := if flagCond cfg st dt then true else st.had_bad_dt
  let die1 := if dieCond cfg st dt then true else st.die
  let this_t := gps_to_secs tsbuf
  let hb2 := gpsCheck cfg st hb1 this_t
  ({ tscount := st.tscount + 1, tlast := t, last_t := this_t, had_t := true,
     had_bad_dt := hb2, die := die1 },
   { formatErr := badFormat tsbuf, quality := classify (tsbuf.get QUALPOS), t := t, dt := dt,
     dtShown := cfg.dodiff && decide (st.tscount > 0),
     badDT := flagCond cfg st dt, dieSet := dieCond cfg st dt,
     this_t := this_t, gpsErr := gpsCond cfg st this_t })

/-- The `while(1)` loop of `main` over the successive full reads: it stops at
`if(die) break;` before a read and at `if(oneshot || die) break;` after one. -/
def mainLoop (cfg : Config) : State → List Record → State × List Report
  | st, [] => (st, [])
  | st, r :: rs =>
    if st.die then (st, [])
    else
      let res := step cfg st r
      if cfg.oneshot || res.1.die then (res.1, [res.2])
      else
        let rest := mainLoop cfg res.1 rs
        (rest.1, res.2 :: rest.2)

/-- An iteration that reports no delta verdict: no `BAD DT!!`, no `die = 1`,
no GPS error. -/
def Report.quiet (rep : Report) : Bool := !rep.badDT && !rep.dieSet && !rep.gpsErr

/-- The final `if(die && had_bad_dt)` warning of `main`. -/
def summaryWarning (st : State) : Bool := st.die && st.had_bad_dt

/-! ## Sample records -/

/-- Big-endian bytes of `v`, `n` of them (the low `8 * n` bits). -/
def beBytes : Nat → Nat → List Int
  | 0, _ => []
  | n + 1, v => beBytes n (v / 256) ++ [((v % 256 : Nat) : Int)]

/-- Characters of `SOH d d d : h h : m m : s s q`, the first 14 of a record. -/
def header (d1 d2 d3 h1 h2 m1 m2 s1 s2 : Int) (q : Int) : List Int :=
  [SOH, CH0 + d1, CH0 + d2, CH0 + d3, COL, CH0 + h1, CH0 + h2, COL,
   CH0 + m1, CH0 + m2, COL, CH0 + s1, CH0 + s2, q]

/-- A record reading `001:00:00:00`, quality `' '`, tick counter 0. -/
def tickRec0 : Record :=
  ⟨header 0 0 1 0 0 0 0 0 0 32 ++ beBytes 8 0, by decide, by decide⟩

/-- A record reading `001:00:00:01`, tick counter 20000000. -/
def tickRec1 : Record :=
  ⟨header 0 0 1 0 0 0 0 0 1 32 ++ beBytes 8 20000000, by decide, by decide⟩

/-- A record reading `001:00:00:02`, tick counter 20000000 again. -/
def tickRec2 : Record :=
  ⟨header 0 0 1 0 0 0 0 0 2 32 ++ beBytes 8 20000000, by decide, by decide⟩

/-- A record reading `001:00:00:03`, tick counter 40000005. -/
def tickRec3 : Record :=
  ⟨header 0 0 1 0 0 0 0 0 3 32 ++ beBytes 8 40000005, by decide, by decide⟩

/-- A record reading `001:00:00:03`, tick counter 40000000. -/
def tickRec4 : Record :=
  ⟨header 0 0 1 0 0 0 0 0 3 32 ++ beBytes 8 40000000, by decide, by decide⟩

/-- A record reading `365:23:59:59`, tick counter 1. -/
def lastSecondRec : Record :=
  ⟨header 3 6 5 2 3 5 9 5 9 32 ++ beBytes 8 1, by decide, by decide⟩

/-- A record whose first character is 2 instead of `SOH`, reading
`100:00:00:01`, tick counter 5. -/
def badStartRec : Record :=
  ⟨[2, 49, 48, 48, 58, 48, 48, 58, 48, 48, 58, 48, 49, 32] ++ beBytes 8 5,
    by decide, by decide⟩

/-- A record reading `001:00:00:04`, tick counter 1. -/
def tickRecOne : Record :=
  ⟨header 0 0 1 0 0 0 0 0 4 32 ++ beBytes 8 1, by decide, by decide⟩

/-- A record reading `001:00:00:05`, tick counter 10000000. -/
def wrapRec : Record :=
  ⟨header 0 0 1 0 0 0 0 0 5 32 ++ beBytes 8 10000000, by decide, by decide⟩

/-- A record reading `000:00:00:00`, tick counter 0. -/
def dayZeroRec : Record :=
  ⟨header 0 0 0 0 0 0 0 0 0 32 ++ beBytes 8 0, by decide, by decide⟩

/-- A record reading `366:00:00:00`, tick counter 20000001. -/
def day366Rec : Record :=
  ⟨header 3 6 6 0 0 0 0 0 0 32 ++ beBytes 8 20000001, by decide, by decide⟩

/-- A record reading `001:00:01:40` (second 100 of the year). -/
def calRec100 : Record :=
  ⟨header 0 0 1 0 0 0 1 4 0 32 ++ beBytes 8 0, by decide, by decide⟩

/-- A record reading `001:00:01:41` (second 101 of the year). -/
def calRec101 : Record :=
  ⟨header 0 0 1 0 0 0 1 4 1 32 ++ beBytes 8 20000000, by decide, by decide⟩

/-- A record reading `001:00:01:42` (second 102 of the year). -/
def calRec102 : Record :=
  ⟨header 0 0 1 0 0 0 1 4 2 32 ++ beBytes 8 40000000, by decide, by decide⟩

/-- A record reading `001:00:00:00` (second 0), tick counter 60000000. -/
def calRec0 : Record :=
  ⟨header 0 0 1 0 0 0 0 0 0 32 ++ beBytes 8 60000000, by decide, by decide⟩

/-- A record reading `001:00:00:01` (second 1), tick counter 80000000. -/
def calRec1 : Record :=
  ⟨header 0 0 1 0 0 0 0 0 1 32 ++ beBytes 8 80000000, by decide, by decide⟩

/-- A record reading `001:00:00:02` (second 2), tick counter 80000000. -/
def calRec2 : Record :=
  ⟨header 0 0 1 0 0 0 0 0 2 32 ++ beBytes 8 80000000, by decide, by decide⟩

/-- Records that each break the format at one of the offsets 0, 4, 7, 10. -/
def badAt0 : Record :=
  ⟨[0, 48, 48, 49, 58, 48, 48, 58, 48, 48, 58, 48, 48, 32] ++ beBytes 8 0, by decide, by decide⟩

/-- Format broken at offset 4 only. -/
def badAt4 : Record :=
  ⟨[1, 48, 48, 49, 32, 48, 48, 58, 48, 48, 58, 48, 48, 32] ++ beBytes 8 0, by decide, by decide⟩

/-- Format broken at offset 7 only. -/
def badAt7 : Record :=
  ⟨[1, 48, 48, 49, 58, 48, 48, 32, 48, 48, 58, 48, 48, 32] ++ beBytes 8 0, by decide, by decide⟩

/-- Format broken at offset 10 only. -/
def badAt10 : Record :=
  ⟨[1, 48, 48, 49, 58, 48, 48, 58, 48, 48, 32, 48, 48, 32] ++ beBytes 8 0, by decide, by decide⟩

/-- Options `-g -i 0`: flag GPS deviations, skip count 0. -/
def gpsCfg0 : Config :=
  { dodiff := false, oneshot := false, skipdt := 0, dodt := false, flaggps := true,
    doflag := false }

/-- Options `-c -i 2`: require 20M ticks, skip two time strings. -/
def enforceCfg : Config :=
  { dodiff := false, oneshot := false, skipdt := 2, dodt := true, flaggps := false,
    doflag := false }

/-- Options `-f -i 2`: flag tick deviations only. -/
def flagCfg : Config :=
  { dodiff := false, oneshot := false, skipdt := 2, dodt := false, flaggps := false,
    doflag := true }

/-- Options `-g -i 2`: flag GPS deviations only. -/
def gpsCfg : Config :=
  { dodiff := false, oneshot := false, skipdt := 2, dodt := false, flaggps := true,
    doflag := false }

/-- Options `-c -i -1`: require 20M ticks, with a negative skip count. -/
def negSkipCfg : Config :=
  { dodiff := false, oneshot := false, skipdt := -1, dodt := true, flaggps := false,
    doflag := false }

/-- Options `-f -i n`: flag tick deviations after skipping `n` time strings. -/
def flagSkipCfg (n : Nat) : Config :=
  { dodiff := false, oneshot := false, skipdt := (n : Int), dodt := false, flaggps := false,
    doflag := true }

/-- A state at the end of a year: 20 samples seen, previous GPS second
31535999 (`365:23:59:59`). -/
def yearEndState : State :=
  { tscount := 20, tlast := 20000000, last_t := 31535999, had_t := true, had_bad_dt := false,
    die := false }

/-- A state whose previous tick counter is `2^64 - 10000000`, about to wrap. -/
def wrapState : State :=
  { tscount := 20, tlast := 18446744073699551616, last_t := 4, had_t := true,
    had_bad_dt := false, die := false }

/-- A state in mid-session: 20 samples seen, previous tick 20000000, previous
GPS second 2. -/
def midState : State :=
  { tscount := 20, tlast := 20000000, last_t := 2, had_t := true, had_bad_dt := false,
    die := false }

/-- The record `r` with its tick characters (offsets 14-21) replaced by the
big-endian bytes of `v`. -/
def withTick (r : Record) (v : Nat) : Record :=
  ⟨r.bytes.take (QUALPOS + 1) ++ beBytes 8 v,
    by simp [beBytes, r.len, TSBUFLEN, QUALPOS],
    by
      intro c hc
      rcases List.mem_append.1 hc with h | h
      · exact r.range c (List.mem_of_mem_take h)
      · simp only [beBytes, List.nil_append, List.cons_append, List.mem_cons,
          List.mem_singleton, List.not_mem_nil, or_false] at h
        omega⟩

/-- The record `r` with its quality character (offset 13) replaced by `q`. -/
def withQuality (r : Record) (q : Int) (hq : -128 ≤ q ∧ q ≤ 255) : Record :=
  ⟨r.bytes.take QUALPOS ++ q :: r.bytes.drop (QUALPOS + 1),
    by simp [r.len, TSBUFLEN, QUALPOS],
    by
      intro c hc
      rcases List.mem_append.1 hc with h | h
      · exact r.range c (List.mem_of_mem_take h)
      · rcases List.mem_cons.1 h with e | e
        · rw [e]
          exact hq
        · exact r.range c (List.mem_of_mem_drop e)⟩

/-- The loop body applied to each record in turn, without the `break`s: what
the checks report on a sequence of samples when nothing stops the session. -/
def feed (cfg : Config) : State → List Record → State × List Report
  | st, [] => (st, [])
  | st, r :: rs =>
    let res := step cfg st r
    let rest := feed cfg res.1 rs
    (rest.1, res.2 :: rest.2)

/-! ## The decimal reading of the calendar fields -/

/-- Value of an ASCII digit, none for any other character. -/
def specDigit (c : Int) : Option Nat :=
  if 48 ≤ c ∧ c ≤ 57 then some (c - 48).toNat else none

/-- Decimal value of a string of ASCII digits, most significant first. -/
def specNumber (cs : List Int) : Option Nat :=
  cs.foldl (fun acc c => acc.bind fun a => (specDigit c).map fun d => 10 * a + d) (some 0)

/-- Day of year, hour, minute and second written at offsets 1-3, 5-6, 8-9 and
11-12 of a record, when all nine characters are digits. -/
def specCalendar (r : Record) : Option (Nat × Nat × Nat × Nat) :=
  (specNumber [r.get 1, r.get 2, r.get 3]).bind fun d =>
  (specNumber [r.get 5, r.get 6]).bind fun h =>
  (specNumber [r.get 8, r.get 9]).bind fun m =>
  (specNumber [r.get 11, r.get 12]).map fun s => (d, h, m, s)

/-- The calendar second after day `d`, hour `h`, minute `m`, second `s`: one
second more, carrying into the minute, the hour and the day. -/
def nextSecond (c : Nat × Nat × Nat × Nat) : Nat × Nat × Nat × Nat :=
  if c.2.2.2 < 59 then (c.1, c.2.1, c.2.2.1, c.2.2.2 + 1)
  else if c.2.2.1 < 59 then (c.1, c.2.1, c.2.2.1 + 1, 0)
  else if c.2.1 < 23 then (c.1, c.2.1 + 1, 0, 0)
  else (c.1 + 1, 0, 0, 0)

/-- Hour at most 23, minute and second at most 59. -/
def timeInRange (c : Nat × Nat × Nat × Nat) : Prop :=
  c.2.1 ≤ 23 ∧ c.2.2.1 ≤ 59 ∧ c.2.2.2 ≤ 59

/-- Calendar order: day first, then hour, minute, second. -/
def calLt (a b : Nat × Nat × Nat × Nat) : Prop :=
  a.1 < b.1 ∨ (a.1 = b.1 ∧ (a.2.1 < b.2.1 ∨ (a.2.1 = b.2.1 ∧
    (a.2.2.1 < b.2.2.1 ∨ (a.2.2.1 = b.2.2.1 ∧ a.2.2.2 < b.2.2.2)))))

/-! ## Big-endian packing -/

/-- Big-endian packing of bytes into an unsigned 64-bit accumulator: for each
byte in turn, shift the accumulator left 8 bits and OR the byte in. -/
def packBE (bs : List Nat) : Nat :=
  bs.foldl (fun acc b => ((acc <<< 8) % U64) ||| b) 0

/-! ## Unsigned subtraction -/

/-- The model of unsigned 64-bit subtraction is the integer difference reduced
modulo `2^64`. -/
theorem u64sub_eq_emod (a b : Nat) :
    ((u64sub a b : Nat) : Int) = ((a : Int) - (b : Int)) % 18446744073709551616 := by
  simp only [u64sub, U64]
  omega

/-! ## Lemmas on one iteration -/

theorem dieCond_iff (cfg : Config) (st : State) (dt : Nat) :
    dieCond cfg st dt = true ↔ (cfg.dodt = true ∧ cfg.skipdt < st.tscount ∧ dt ≠ WANT_DT) := by
  simp [dieCond, and_assoc]

theorem flagCond_iff (cfg : Config) (st : State) (dt : Nat) :
    flagCond cfg st dt = true ↔
      ((cfg.doflag = true ∨ cfg.dodt = true) ∧ cfg.skipdt < st.tscount ∧ dt ≠ WANT_DT) := by
  simp [flagCond, and_assoc]

theorem gpsCond_iff (cfg : Config) (st : State) (this_t : Int) :
    gpsCond cfg st this_t = true ↔
      (cfg.flaggps = true ∧ st.had_t = true ∧ cfg.skipdt < st.tscount ∧ this_t ≠ 0
        ∧ this_t - st.last_t ≠ 1) := by
  unfold gpsCond
  split
  · rename_i h
    simp only [Bool.and_eq_true, decide_eq_true_eq, gt_iff_lt] at h
    simp only [decide_eq_true_eq]
    constructor
    · intro h1
      exact ⟨h.1.1.1, h.1.1.2, h.1.2, h.2, h1⟩
    · intro h1
      exact h1.2.2.2.2
  · rename_i h
    simp only [Bool.and_eq_true, decide_eq_true_eq, gt_iff_lt] at h
    constructor
    · intro h1
      exact absurd h1 (by simp)
    · intro h1
      exact absurd ⟨⟨⟨h1.1, h1.2.1⟩, h1.2.2.1⟩, h1.2.2.2.1⟩ h

theorem dieCond_skip (cfg : Config) (st : State) (dt : Nat) (h : st.tscount ≤ cfg.skipdt) :
    dieCond cfg st dt = false := by
  simp [dieCond, h]

theorem flagCond_skip (cfg : Config) (st : State) (dt : Nat) (h : st.tscount ≤ cfg.skipdt) :
    flagCond cfg st dt = false := by
  simp [flagCond, h]

theorem gpsCond_skip (cfg : Config) (st : State) (this_t : Int)
    (h : st.tscount ≤ cfg.skipdt) : gpsCond cfg st this_t = false := by
  simp [gpsCond, h]

theorem step_dieSet (cfg : Config) (st : State) (r : Record) :
    (step cfg st r).2.dieSet = dieCond cfg st (u64sub (decodeTick r) st.tlast) := rfl

theorem step_badDT (cfg : Config) (st : State) (r : Record) :
    (step cfg st r).2.badDT = flagCond cfg st (u64sub (decodeTick r) st.tlast) := rfl

theorem step_gpsErr (cfg : Config) (st : State) (r : Record) :
    (step cfg st r).2.gpsErr = gpsCond cfg st (gps_to_secs r) := rfl

theorem step_dt (cfg : Config) (st : State) (r : Record) :
    (step cfg st r).2.dt = u64sub (decodeTick r) st.tlast := rfl

theorem step_formatErr (cfg : Config) (st : State) (r : Record) :
    (step cfg st r).2.formatErr = badFormat r := rfl

theorem step_tscount (cfg : Config) (st : State) (r : Record) :
    (step cfg st r).1.tscount = st.tscount + 1 := rfl

theorem step_tlast (cfg : Config) (st : State) (r : Record) :
    (step cfg st r).1.tlast = decodeTick r := rfl

theorem step_last_t (cfg : Config) (st : State) (r : Record) :
    (step cfg st r).1.last_t = gps_to_secs r := rfl

theorem step_had_t (cfg : Config) (st : State) (r : Record) :
    (step cfg st r).1.had_t = true := rfl

theorem step_die (cfg : Config) (st : State) (r : Record) :
    (step cfg st r).1.die = (st.die || (step cfg st r).2.dieSet) := by
  simp only [step]
  cases dieCond cfg st (u64sub (decodeTick r) st.tlast) <;> cases st.die <;> rfl

theorem step_had_bad_dt (cfg : Config) (st : State) (r : Record) :
    (step cfg st r).1.had_bad_dt
      = (st.had_bad_dt || (step cfg st r).2.badDT || (step cfg st r).2.gpsErr) := by
  simp only [step, gpsCheck]
  cases flagCond cfg st (u64sub (decodeTick r) st.tlast) <;>
    cases gpsCond cfg st (gps_to_secs r) <;> cases st.had_bad_dt <;> rfl

theorem mainLoop_continue (cfg : Config) (st : State) (r : Record) (rs : List Record)
    (h0 : st.die = false) (h1 : cfg.oneshot = false) (h2 : (step cfg st r).1.die = false) :
    mainLoop cfg st (r :: rs) =
      ((mainLoop cfg (step cfg st r).1 rs).1,
        (step cfg st r).2 :: (mainLoop cfg (step cfg st r).1 rs).2) := by
  simp [mainLoop, h0, h1, h2]

theorem mainLoop_stop (cfg : Config) (st : State) (r : Record) (rs : List Record)
    (h0 : st.die = false) (h2 : (step cfg st r).1.die = true) :
    mainLoop cfg st (r :: rs) = ((step cfg st r).1, [(step cfg st r).2]) := by
  simp [mainLoop, h0, h2]

/-! ## Termination and the tick check -/

/-- C1: one iteration requests termination (executes `die = 1`) exactly when
`-c` is given, `tscount > skipdt` and the tick difference modulo `2^64` is not
20000000; `die` changes in no other way, so without `-c` neither the `-f` flag
nor a GPS difference stops the session. Scenario: with `-c -i 2` and tick
counters 0, 20000000, 20000000, 40000005 read from the start, the first three
samples request nothing and the fourth, with difference 20000005, does. -/
theorem termination_iff_enforced_tick_mismatch :
    (∀ (cfg : Config) (st : State) (r : Record),
      ((step cfg st r).2.dieSet = true ↔
        (cfg.dodt = true ∧ cfg.skipdt < st.tscount
          ∧ u64sub (decodeTick r) st.tlast ≠ 20000000))
      ∧ (step cfg st r).1.die = (st.die || (step cfg st r).2.dieSet))
    ∧ (∀ (cfg : Config) (st : State) (r : Record), cfg.dodt = false →
        (step cfg st r).2.dieSet = false ∧ (step cfg st r).1.die = st.die)
    ∧ (∀ (cfg : Config) (g : Nat) (l : Int) (r1 r2 r3 r4 : Record),
        cfg.dodt = true → cfg.skipdt = 2 → cfg.oneshot = false →
        decodeTick r1 = 0 → decodeTick r2 = 20000000 →
        decodeTick r3 = 20000000 → decodeTick r4 = 40000005 →
        (mainLoop cfg (fresh g l) [r1, r2, r3, r4]).2.map Report.dieSet
            = [false, false, false, true]
          ∧ (mainLoop cfg (fresh g l) [r1, r2, r3, r4]).2.map Report.dt
            = [u64sub 0 g, 20000000, 0, 20000005]
          ∧ (mainLoop cfg (fresh g l) [r1, r2, r3, r4]).1.die = true) := by
  refine ⟨fun cfg st r => ⟨?_, step_die cfg st r⟩, fun cfg st r h => ?_, ?_⟩
  · exact dieCond_iff cfg st _
  · have hd : (step cfg st r).2.dieSet = false := by
      cases hc : (step cfg st r).2.dieSet
      · rfl
      · rw [step_dieSet, dieCond_iff] at hc
        rw [h] at hc
        exact absurd hc.1 (by decide)
    refine ⟨hd, ?_⟩
    rw [step_die, hd, Bool.or_false]
  · intro cfg g l r1 r2 r3 r4 hdodt hskip hone h1 h2 h3 h4
    have a1 : (step cfg (fresh g l) r1).2.dieSet = false :=
      dieCond_skip _ _ _ (by simp [fresh, hskip])
    have d1 : (step cfg (fresh g l) r1).1.die = false := by rw [step_die, a1]; rfl
    have a2 : (step cfg (step cfg (fresh g l) r1).1 r2).2.dieSet = false :=
      dieCond_skip _ _ _ (by simp [step_tscount, fresh, hskip])
    have d2 : (step cfg (step cfg (fresh g l) r1).1 r2).1.die = false := by
      rw [step_die, a2, d1]; rfl
    have a3 : (step cfg (step cfg (step cfg (fresh g l) r1).1 r2).1 r3).2.dieSet = false :=
      dieCond_skip _ _ _ (by simp [step_tscount, fresh, hskip])
    have d3 : (step cfg (step cfg (step cfg (fresh g l) r1).1 r2).1 r3).1.die = false := by
      rw [step_die, a3, d2]; rfl
    have a4 :
        (step cfg (step cfg (step cfg (step cfg (fresh g l) r1).1 r2).1 r3).1 r4).2.dieSet
          = true := by
      rw [step_dieSet, dieCond_iff, step_tlast, h3, h4]
      refine ⟨hdodt, ?_, by decide⟩
      simp [step_tscount, fresh, hskip]
    have d4 :
        (step cfg (step cfg (step cfg (step cfg (fresh g l) r1).1 r2).1 r3).1 r4).1.die
          = true := by rw [step_die, a4, d3]; rfl
    have e2 : u64sub 20000000 0 = 20000000 := by decide
    have e3 : u64sub 20000000 20000000 = 0 := by decide
    have e4 : u64sub 40000005 20000000 = 20000005 := by decide
    rw [mainLoop_continue _ _ _ _ rfl hone d1, mainLoop_continue _ _ _ _ d1 hone d2,
      mainLoop_continue _ _ _ _ d2 hone d3, mainLoop_stop _ _ _ _ d3 d4]
    refine ⟨?_, ?_, d4⟩
    · simp only [List.map_cons, List.map_nil, a1, a2, a3, a4]
    · simp only [List.map_cons, List.map_nil, step_dt, step_tlast, h1, h2, h3, h4, e2, e3, e4]
      rfl

/-- The C1 scenario on four concrete records, with `tlast` starting at 7. -/
theorem termination_iff_enforced_tick_mismatch_witness :
    (mainLoop enforceCfg (fresh 7 0) [tickRec0, tickRec1, tickRec2, tickRec3]).2.map
        Report.dieSet = [false, false, false, true]
      ∧ (mainLoop enforceCfg (fresh 7 0) [tickRec0, tickRec1, tickRec2, tickRec3]).2.map
        Report.dt = [u64sub 0 7, 20000000, 0, 20000005]
      ∧ (mainLoop enforceCfg (fresh 7 0) [tickRec0, tickRec1, tickRec2, tickRec3]).1.die = true
      ∧ (step flagCfg midState tickRec3).2.dieSet = false
      ∧ (step flagCfg midState tickRec3).1.die = midState.die :=
  ⟨(termination_iff_enforced_tick_mismatch.2.2 enforceCfg 7 0 tickRec0 tickRec1 tickRec2
      tickRec3 rfl rfl rfl (by decide) (by decide) (by decide) (by decide)).1,
    (termination_iff_enforced_tick_mismatch.2.2 enforceCfg 7 0 tickRec0 tickRec1 tickRec2
      tickRec3 rfl rfl rfl (by decide) (by decide) (by decide) (by decide)).2.1,
    (termination_iff_enforced_tick_mismatch.2.2 enforceCfg 7 0 tickRec0 tickRec1 tickRec2
      tickRec3 rfl rfl rfl (by decide) (by decide) (by decide) (by decide)).2.2,
    (termination_iff_enforced_tick_mismatch.2.1 flagCfg midState tickRec3 rfl).1,
    (termination_iff_enforced_tick_mismatch.2.1 flagCfg midState tickRec3 rfl).2⟩

/-- C2: one iteration prints `BAD DT!!` exactly when `-f` or `-c` is given,
`tscount > skipdt` and the tick difference is not 20000000; printing it sets
`had_bad_dt`; a difference of exactly 20000000 is never reported. -/
theorem bad_dt_reported_iff (cfg : Config) (st : State) (r : Record) :
    ((step cfg st r).2.badDT = true ↔
      ((cfg.doflag = true ∨ cfg.dodt = true) ∧ cfg.skipdt < st.tscount
        ∧ u64sub (decodeTick r) st.tlast ≠ 20000000))
    ∧ ((step cfg st r).2.badDT = true → (step cfg st r).1.had_bad_dt = true)
    ∧ (u64sub (decodeTick r) st.tlast = 20000000 → (step cfg st r).2.badDT = false) := by
  refine ⟨flagCond_iff cfg st _, fun h => ?_, fun h => ?_⟩
  · rw [step_had_bad_dt, h, Bool.or_true, Bool.true_or]
  · cases hc : (step cfg st r).2.badDT
    · rfl
    · rw [step_badDT, flagCond_iff] at hc
      exact absurd h hc.2.2

/-- C2 on concrete samples: a difference of 20000005 under `-f` is reported and
sets `had_bad_dt`, a difference of 20000000 under `-c` is not reported. -/
theorem bad_dt_reported_iff_witness :
    (step flagCfg midState tickRec3).2.badDT = true
      ∧ (step flagCfg midState tickRec3).1.had_bad_dt = true
      ∧ (step enforceCfg midState tickRec4).2.badDT = false :=
  ⟨by decide, (bad_dt_reported_iff flagCfg midState tickRec3).2.1 (by decide),
    (bad_dt_reported_iff enforceCfg midState tickRec4).2.2 (by decide)⟩

/-! ## The GPS check -/

/-- C3: with `-g`, a previous sample, `tscount > skipdt` and a non-zero
`this_t`, the GPS error is printed (and `had_bad_dt` is then set) exactly when
`this_t - last_t` is not 1; when the difference is 1 the check leaves
`had_bad_dt` as the tick check left it. Without `-g` the GPS error is never
printed. -/
theorem gps_error_iff_delta_not_one :
    (∀ (cfg : Config) (st : State) (r : Record),
      cfg.flaggps = true → st.had_t = true → cfg.skipdt < st.tscount → gps_to_secs r ≠ 0 →
        (((step cfg st r).2.gpsErr = true ∧ (step cfg st r).1.had_bad_dt = true)
            ↔ gps_to_secs r - st.last_t ≠ 1)
          ∧ ((step cfg st r).2.gpsErr = true ↔ gps_to_secs r - st.last_t ≠ 1)
          ∧ (gps_to_secs r - st.last_t = 1 →
              (step cfg st r).1.had_bad_dt = (st.had_bad_dt || (step cfg st r).2.badDT)))
    ∧ (∀ (cfg : Config) (st : State) (r : Record), cfg.flaggps = false →
        (step cfg st r).2.gpsErr = false) := by
  constructor
  · intro cfg st r hg ht hs h0
    have key : (step cfg st r).2.gpsErr = true ↔ gps_to_secs r - st.last_t ≠ 1 := by
      rw [step_gpsErr, gpsCond_iff]
      exact ⟨fun h => h.2.2.2.2, fun h => ⟨hg, ht, hs, h0, h⟩⟩
    refine ⟨⟨fun h => key.1 h.1, fun h => ⟨key.2 h, ?_⟩⟩, key, fun h => ?_⟩
    · rw [step_had_bad_dt, key.2 h, Bool.or_true]
    · have hf : (step cfg st r).2.gpsErr = false := by
        cases hc : (step cfg st r).2.gpsErr
        · rfl
        · exact absurd h (key.1 hc)
      rw [step_had_bad_dt, hf, Bool.or_false]
  · intro cfg st r hg
    cases hc : (step cfg st r).2.gpsErr
    · rfl
    · rw [step_gpsErr, gpsCond_iff, hg] at hc
      exact absurd hc.1 (by decide)

/-- C3 on concrete samples: after GPS second 2, the second 3 is accepted and
the last second of the year is reported; without `-g` nothing is reported. -/
theorem gps_error_iff_delta_not_one_witness :
    (step gpsCfg midState tickRec4).2.gpsErr = false
      ∧ (step gpsCfg midState lastSecondRec).2.gpsErr = true
      ∧ (step gpsCfg midState lastSecondRec).1.had_bad_dt = true
      ∧ (step flagCfg midState lastSecondRec).2.gpsErr = false :=
  ⟨by
      have h := (gps_error_iff_delta_not_one.1 gpsCfg midState tickRec4 rfl rfl
        (by decide) (by decide)).2.1
      cases hc : (step gpsCfg midState tickRec4).2.gpsErr
      · rfl
      · exact absurd (h.1 hc) (by decide),
    ((gps_error_iff_delta_not_one.1 gpsCfg midState lastSecondRec rfl rfl
        (by decide) (by decide)).1.2 (by decide)).1,
    ((gps_error_iff_delta_not_one.1 gpsCfg midState lastSecondRec rfl rfl
        (by decide) (by decide)).1.2 (by decide)).2,
    gps_error_iff_delta_not_one.2 flagCfg midState lastSecondRec rfl⟩

/-! ## Records as lists of 22 characters -/

theorem Record.bytes_eq_map (r : Record) : r.bytes = (List.range TSBUFLEN).map r.get := by
  apply List.ext_getElem
  · simp [r.len]
  · intro i h1 h2
    simp [Record.get, List.getD_eq_getElem?_getD, List.getElem?_eq_getElem h1]

theorem Record.bytes_eq (r : Record) :
    r.bytes = [r.get 0, r.get 1, r.get 2, r.get 3, r.get 4, r.get 5, r.get 6, r.get 7,
      r.get 8, r.get 9, r.get 10, r.get 11, r.get 12, r.get 13, r.get 14, r.get 15,
      r.get 16, r.get 17, r.get 18, r.get 19, r.get 20, r.get 21] :=
  r.bytes_eq_map

theorem Record.get_range (r : Record) (i : Nat) : -128 ≤ r.get i ∧ r.get i ≤ 255 := by
  by_cases h : i < r.bytes.length
  · have e : r.get i = r.bytes[i] := by
      simp [Record.get, List.getD_eq_getElem?_getD, List.getElem?_eq_getElem h]
    rw [e]
    exact r.range _ (List.getElem_mem h)
  · have e : r.get i = 0 := by
      simp only [Record.get]
      exact List.getD_eq_default _ _ (by omega)
    rw [e]
    omega

/-- The `int` arithmetic of `gps_to_secs` cannot leave the 32-bit range. -/
theorem gps_to_secs_int_range (r : Record) :
    -2147483648 ≤ gps_to_secs r ∧ gps_to_secs r ≤ 2147483647 := by
  have h1 := r.get_range 1
  have h2 := r.get_range 2
  have h3 := r.get_range 3
  have h5 := r.get_range 5
  have h6 := r.get_range 6
  have h8 := r.get_range 8
  have h9 := r.get_range 9
  have h11 := r.get_range 11
  have h12 := r.get_range 12
  simp only [gps_to_secs, CH0]
  omega

/-! ## The format test -/

/-- C4 as stated fails: the record `badStartRec` does not start with `SOH`, the
format error is printed, and the iteration still counts it (`tscount` 20 to
21), replaces `tlast` and `last_t` by its values and sets `had_bad_dt`. -/
theorem format_error_keeps_state_counterexample :
    badStartRec.get 0 ≠ SOH
      ∧ (step flagCfg midState badStartRec).2.formatErr = true
      ∧ midState.tscount = 20 ∧ (step flagCfg midState badStartRec).1.tscount = 21
      ∧ midState.tlast = 20000000 ∧ (step flagCfg midState badStartRec).1.tlast = 5
      ∧ midState.last_t = 2 ∧ (step flagCfg midState badStartRec).1.last_t = 8553601
      ∧ midState.had_bad_dt = false
      ∧ (step flagCfg midState badStartRec).1.had_bad_dt = true := by
  decide

/-- C4, amended: a record that fails the format test gets the format error
printed and is processed like any other: `tscount` grows by one, `tlast` and
`last_t` become the record's tick counter and GPS seconds, and `had_bad_dt` is
its old value or-ed with the two verdicts of this record. -/
theorem format_error_still_processed (cfg : Config) (st : State) (r : Record)
    (h : badFormat r = true) :
    (step cfg st r).2.formatErr = true
      ∧ (step cfg st r).1.tscount = st.tscount + 1
      ∧ (step cfg st r).1.tlast = decodeTick r
      ∧ (step cfg st r).1.last_t = gps_to_secs r
      ∧ (step cfg st r).1.had_bad_dt
          = (st.had_bad_dt || (step cfg st r).2.badDT || (step cfg st r).2.gpsErr) :=
  ⟨h, rfl, rfl, rfl, step_had_bad_dt cfg st r⟩

/-- C4, amended, on the record `badStartRec`. -/
theorem format_error_still_processed_witness :
    badFormat badStartRec = true
      ∧ (step gpsCfg midState badStartRec).2.formatErr = true
      ∧ (step gpsCfg midState badStartRec).1.tscount = midState.tscount + 1
      ∧ (step gpsCfg midState badStartRec).1.tlast = decodeTick badStartRec
      ∧ (step gpsCfg midState badStartRec).1.last_t = gps_to_secs badStartRec
      ∧ (step gpsCfg midState badStartRec).1.had_bad_dt
          = (midState.had_bad_dt || (step gpsCfg midState badStartRec).2.badDT
              || (step gpsCfg midState badStartRec).2.gpsErr) :=
  ⟨by decide, format_error_still_processed gpsCfg midState badStartRec (by decide)⟩

/-! ## Calendar decoding -/

theorem specDigit_some {c : Int} {d : Nat} (h : specDigit c = some d) :
    c - CH0 = (d : Int) ∧ d ≤ 9 := by
  unfold specDigit at h
  split at h
  · rename_i hc
    simp only [Option.some.injEq] at h
    subst h
    simp only [CH0]
    omega
  · exact absurd h (by simp)

theorem specNumber_two {a b : Int} {n : Nat} (h : specNumber [a, b] = some n) :
    (a - CH0) * 10 + (b - CH0) = (n : Int) ∧ n ≤ 99 := by
  simp only [specNumber, List.foldl_cons, List.foldl_nil, Option.some_bind] at h
  cases ha : specDigit a with
  | none => rw [ha] at h; exact absurd h (by simp)
  | some x =>
    cases hb : specDigit b with
    | none => rw [ha, hb] at h; exact absurd h (by simp)
    | some y =>
      rw [ha, hb] at h
      simp only [Option.map_some', Option.some_bind, Option.some.injEq] at h
      have h1 := specDigit_some ha
      have h2 := specDigit_some hb
      omega

theorem specNumber_three {a b c : Int} {n : Nat} (h : specNumber [a, b, c] = some n) :
    (a - CH0) * 100 + (b - CH0) * 10 + (c - CH0) = (n : Int) ∧ n ≤ 999 := by
  simp only [specNumber, List.foldl_cons, List.foldl_nil, Option.some_bind] at h
  cases ha : specDigit a with
  | none => rw [ha] at h; exact absurd h (by simp)
  | some x =>
    cases hb : specDigit b with
    | none => rw [ha, hb] at h; exact absurd h (by simp)
    | some y =>
      cases hc : specDigit c with
      | none => rw [ha, hb, hc] at h; exact absurd h (by simp)
      | some z =>
        rw [ha, hb, hc] at h
        simp only [Option.map_some', Option.some_bind, Option.some.injEq] at h
        have h1 := specDigit_some ha
        have h2 := specDigit_some hb
        have h3 := specDigit_some hc
        omega

theorem specCalendar_some {r : Record} {d h m s : Nat}
    (hc : specCalendar r = some (d, h, m, s)) :
    specNumber [r.get 1, r.get 2, r.get 3] = some d
      ∧ specNumber [r.get 5, r.get 6] = some h
      ∧ specNumber [r.get 8, r.get 9] = some m
      ∧ specNumber [r.get 11, r.get 12] = some s := by
  unfold specCalendar at hc
  cases h1 : specNumber [r.get 1, r.get 2, r.get 3] with
  | none => rw [h1] at hc; exact absurd hc (by simp)
  | some d1 =>
    cases h2 : specNumber [r.get 5, r.get 6] with
    | none => rw [h1, h2] at hc; exact absurd hc (by simp)
    | some d2 =>
      cases h3 : specNumber [r.get 8, r.get 9] with
      | none => rw [h1, h2, h3] at hc; exact absurd hc (by simp)
      | some d3 =>
        cases h4 : specNumber [r.get 11, r.get 12] with
        | none => rw [h1, h2, h3, h4] at hc; exact absurd hc (by simp)
        | some d4 =>
          rw [h1, h2, h3, h4] at hc
          simp only [Option.some_bind, Option.map_some', Option.some.injEq,
            Prod.mk.injEq] at hc
          obtain ⟨e1, e2, e3, e4⟩ := hc
          subst e1 e2 e3 e4
          exact ⟨rfl, rfl, rfl, rfl⟩

/-- C5: when the characters at offsets 1-3, 5-6, 8-9 and 11-12 are ASCII
digits reading day of year `d`, hour `h`, minute `m` and second `s`,
`gps_to_secs` returns `(d-1)*86400 + h*3600 + m*60 + s`; a record reading
`365:23:59:59` gives 31535999. -/
theorem gps_to_secs_of_calendar :
    (∀ (r : Record) (d h m s : Nat), specCalendar r = some (d, h, m, s) →
      gps_to_secs r = ((d : Int) - 1) * 86400 + (h : Int) * 3600 + (m : Int) * 60 + (s : Int))
    ∧ (∀ r : Record,
        (r.bytes.drop 1).take 12 = [51, 54, 53, 58, 50, 51, 58, 53, 57, 58, 53, 57] →
        specCalendar r = some (365, 23, 59, 59) ∧ gps_to_secs r = 31535999) := by
  constructor
  · intro r d h m s hc
    obtain ⟨h1, h2, h3, h4⟩ := specCalendar_some hc
    have e1 := (specNumber_three h1).1
    have e2 := (specNumber_two h2).1
    have e3 := (specNumber_two h3).1
    have e4 := (specNumber_two h4).1
    unfold gps_to_secs
    rw [e1, e2, e3]
    omega
  · intro r hr
    rw [r.bytes_eq] at hr
    simp only [List.drop_succ_cons, List.drop_zero, List.take_succ_cons, List.take_zero,
      List.cons.injEq, and_true] at hr
    obtain ⟨h1, h2, h3, -, h5, h6, -, h8, h9, -, h11, h12⟩ := hr
    constructor
    · simp only [specCalendar, h1, h2, h3, h5, h6, h8, h9, h11, h12]
      decide
    · simp only [gps_to_secs, h1, h2, h3, h5, h6, h8, h9, h11, h12, CH0]
      decide

/-- C5 on the record `lastSecondRec`, which reads `365:23:59:59`. -/
theorem gps_to_secs_of_calendar_witness :
    specCalendar lastSecondRec = some (365, 23, 59, 59)
      ∧ gps_to_secs lastSecondRec
          = ((365 : Nat) : Int) * 86400 - 86400 + 23 * 3600 + 59 * 60 + 59
      ∧ gps_to_secs lastSecondRec = 31535999 :=
  ⟨by decide,
    by
      have h := gps_to_secs_of_calendar.1 lastSecondRec 365 23 59 59 (by decide)
      rw [h]
      decide,
    (gps_to_secs_of_calendar.2 lastSecondRec (by decide)).2⟩

/-! ## Tick decoding -/

theorem ucharOf_lt (c : Int) : ucharOf c < 256 := by
  unfold ucharOf
  omega

/-- Shifting left by 8 within 64 bits and or-ing a byte in is
`256 * (t mod 2^56) + b`. -/
theorem shl8_or (t b : Nat) (hb : b < 256) :
    ((t <<< 8) % U64) ||| b = 256 * (t % 72057594037927936) + b := by
  have e1 : (t <<< 8) % U64 = 2 ^ 8 * (t % 72057594037927936) := by
    rw [Nat.shiftLeft_eq, Nat.mul_comm t (2 ^ 8)]
    exact Nat.mul_mod_mul_left (2 ^ 8) t 72057594037927936
  rw [e1, ← Nat.mul_add_lt_is_or (by simpa using hb)]

theorem tickStep_eq (r : Record) (t i : Nat) :
    tickStep r t i = 256 * (t % 72057594037927936) + ucharOf (r.get i) :=
  shl8_or t _ (ucharOf_lt _)

theorem tickIndices_eq : tickIndices = [14, 15, 16, 17, 18, 19, 20, 21] := by decide

/-- The tick counter as a base-256 number, character 14 most significant. -/
theorem decodeTick_eq (r : Record) :
    decodeTick r =
      ucharOf (r.get 14) * 256 ^ 7 + ucharOf (r.get 15) * 256 ^ 6
        + ucharOf (r.get 16) * 256 ^ 5 + ucharOf (r.get 17) * 256 ^ 4
        + ucharOf (r.get 18) * 256 ^ 3 + ucharOf (r.get 19) * 256 ^ 2
        + ucharOf (r.get 20) * 256 + ucharOf (r.get 21) := by
  have h14 := ucharOf_lt (r.get 14)
  have h15 := ucharOf_lt (r.get 15)
  have h16 := ucharOf_lt (r.get 16)
  have h17 := ucharOf_lt (r.get 17)
  have h18 := ucharOf_lt (r.get 18)
  have h19 := ucharOf_lt (r.get 19)
  have h20 := ucharOf_lt (r.get 20)
  have h21 := ucharOf_lt (r.get 21)
  simp only [decodeTick, tickIndices_eq, List.foldl_cons, List.foldl_nil, tickStep_eq]
  norm_num
  omega

theorem decodeTick_lt (r : Record) : decodeTick r < U64 := by
  have h14 := ucharOf_lt (r.get 14)
  have h15 := ucharOf_lt (r.get 15)
  have h16 := ucharOf_lt (r.get 16)
  have h17 := ucharOf_lt (r.get 17)
  have h18 := ucharOf_lt (r.get 18)
  have h19 := ucharOf_lt (r.get 19)
  have h20 := ucharOf_lt (r.get 20)
  have h21 := ucharOf_lt (r.get 21)
  rw [decodeTick_eq, U64]
  norm_num
  omega

/-- Packing nine characters from the quality character on gives the same
counter: the quality character is shifted out of the 64 bits. -/
theorem decodeTick_eq_packBE_from_qualpos (r : Record) :
    decodeTick r = packBE ((r.bytes.drop QUALPOS).map ucharOf) := by
  conv_rhs => rw [r.bytes_eq]
  have h13 := ucharOf_lt (r.get 13)
  have h14 := ucharOf_lt (r.get 14)
  have h15 := ucharOf_lt (r.get 15)
  have h16 := ucharOf_lt (r.get 16)
  have h17 := ucharOf_lt (r.get 17)
  have h18 := ucharOf_lt (r.get 18)
  have h19 := ucharOf_lt (r.get 19)
  have h20 := ucharOf_lt (r.get 20)
  have h21 := ucharOf_lt (r.get 21)
  rw [decodeTick_eq]
  simp only [QUALPOS, packBE, List.drop_succ_cons, List.drop_zero, List.map_cons, List.map_nil,
    List.foldl_cons, List.foldl_nil]
  rw [shl8_or _ _ h13, shl8_or _ _ h14, shl8_or _ _ h15, shl8_or _ _ h16, shl8_or _ _ h17,
    shl8_or _ _ h18, shl8_or _ _ h19, shl8_or _ _ h20, shl8_or _ _ h21]
  norm_num
  omega

/-- C6 as stated fails: the record `tickRec3` has no nine characters after
offset 13 (offset 22 is past its end), so its tick counter is not the packing
of nine bytes that follow the quality character. -/
theorem tick_is_nine_bytes_counterexample :
    ¬ ∃ bs : List Int, bs.length = 9
        ∧ (∀ k, k < 9 → tickRec3.bytes[QUALPOS + 1 + k]? = bs[k]?)
        ∧ decodeTick tickRec3 = packBE (bs.map ucharOf) := by
  rintro ⟨bs, hl, hk, -⟩
  have h8 : tickRec3.bytes[QUALPOS + 1 + 8]? = bs[8]? := hk 8 (by decide)
  have hn : tickRec3.bytes[QUALPOS + 1 + 8]? = none := by decide
  rw [hn] at h8
  have hle := List.getElem?_eq_none_iff.1 h8.symm
  omega

/-- C6, amended: the characters after offset 13 are the 8 at offsets 14-21, and
the tick counter is their big-endian packing into a 64-bit accumulator (shift
left 8 bits, OR the next byte in), which is their value as a base-256 number
and is below `2^64`. -/
theorem tick_is_eight_bytes_big_endian (r : Record) :
    (r.bytes.drop (QUALPOS + 1)).length = 8
      ∧ r.bytes.drop (QUALPOS + 1) = [r.get 14, r.get 15, r.get 16, r.get 17, r.get 18,
          r.get 19, r.get 20, r.get 21]
      ∧ decodeTick r = packBE ((r.bytes.drop (QUALPOS + 1)).map ucharOf)
      ∧ decodeTick r =
          ucharOf (r.get 14) * 256 ^ 7 + ucharOf (r.get 15) * 256 ^ 6
            + ucharOf (r.get 16) * 256 ^ 5 + ucharOf (r.get 17) * 256 ^ 4
            + ucharOf (r.get 18) * 256 ^ 3 + ucharOf (r.get 19) * 256 ^ 2
            + ucharOf (r.get 20) * 256 + ucharOf (r.get 21)
      ∧ decodeTick r < U64 := by
  refine ⟨?_, ?_, ?_, decodeTick_eq r, decodeTick_lt r⟩
  · rw [List.length_drop, r.len]
    rfl
  · conv_lhs => rw [r.bytes_eq]
    rfl
  · conv_rhs => rw [r.bytes_eq]
    rfl

/-! ## The skip window -/

theorem step_skip (cfg : Config) (st : State) (r : Record) (h : st.tscount ≤ cfg.skipdt) :
    (step cfg st r).2.badDT = false ∧ (step cfg st r).2.dieSet = false
      ∧ (step cfg st r).2.gpsErr = false
      ∧ (step cfg st r).1.had_bad_dt = st.had_bad_dt
      ∧ (step cfg st r).1.die = st.die := by
  have h1 : (step cfg st r).2.badDT = false := flagCond_skip cfg st _ h
  have h2 : (step cfg st r).2.dieSet = false := dieCond_skip cfg st _ h
  have h3 : (step cfg st r).2.gpsErr = false := gpsCond_skip cfg st _ h
  refine ⟨h1, h2, h3, ?_, ?_⟩
  · rw [step_had_bad_dt, h1, h3, Bool.or_false, Bool.or_false]
  · rw [step_die, h2, Bool.or_false]

theorem mainLoop_oneshot (cfg : Config) (st : State) (r : Record) (rs : List Record)
    (h0 : st.die = false) (h1 : cfg.oneshot = true) :
    mainLoop cfg st (r :: rs) = ((step cfg st r).1, [(step cfg st r).2]) := by
  simp [mainLoop, h0, h1]

theorem quiet_of_fields {rep : Report} (h1 : rep.badDT = false) (h2 : rep.dieSet = false)
    (h3 : rep.gpsErr = false) : rep.quiet = true := by
  simp [Report.quiet, h1, h2, h3]

/-- A run that stays inside the skip window reports nothing and leaves
`had_bad_dt` and `die` alone. -/
theorem mainLoop_skip (cfg : Config) :
    ∀ (rs : List Record) (st : State), st.die = false →
      st.tscount + (rs.length : Int) ≤ cfg.skipdt + 1 →
      (mainLoop cfg st rs).1.die = false
        ∧ (mainLoop cfg st rs).1.had_bad_dt = st.had_bad_dt
        ∧ ∀ rep ∈ (mainLoop cfg st rs).2, rep.quiet = true := by
  intro rs
  induction rs with
  | nil =>
    intro st hd _
    exact ⟨hd, rfl, fun rep h => absurd h (List.not_mem_nil rep)⟩
  | cons r rs ih =>
    intro st hd hlen
    have hle : st.tscount ≤ cfg.skipdt := by
      rw [List.length_cons] at hlen
      push_cast at hlen
      omega
    obtain ⟨h1, h2, h3, h4, h5⟩ := step_skip cfg st r hle
    have hq := quiet_of_fields h1 h2 h3
    have hd1 : (step cfg st r).1.die = false := by rw [h5, hd]
    cases ho : cfg.oneshot
    · rw [mainLoop_continue cfg st r rs hd ho hd1]
      have hlen1 : (step cfg st r).1.tscount + (rs.length : Int) ≤ cfg.skipdt + 1 := by
        rw [step_tscount]
        rw [List.length_cons] at hlen
        push_cast at hlen
        omega
      obtain ⟨i1, i2, i3⟩ := ih (step cfg st r).1 hd1 hlen1
      refine ⟨i1, by rw [i2, h4], fun rep hrep => ?_⟩
      rcases List.mem_cons.1 hrep with e | e
      · rw [e]; exact hq
      · exact i3 rep e
    · rw [mainLoop_oneshot cfg st r rs hd ho]
      refine ⟨hd1, h4, fun rep hrep => ?_⟩
      rw [List.mem_singleton.1 hrep]
      exact hq

theorem decodeTick_tickRec0 : decodeTick tickRec0 = 0 := by decide

/-- Under `-f -i n`, a run of zero tick counters is flagged for the first time
once `tscount` has passed `n`. -/
theorem mainLoop_flag_after_skip (n : Nat) :
    ∀ (k : Nat) (st : State), st.die = false → st.tscount + (k : Int) = (n : Int) + 1 →
      (k = 0 → st.tlast = 0) →
      (mainLoop (flagSkipCfg n) st (List.replicate (k + 1) tickRec0)).2.map Report.badDT
        = List.replicate k false ++ [true] := by
  intro k
  induction k with
  | zero =>
    intro st hd hts htl
    have hdie : (step (flagSkipCfg n) st tickRec0).1.die = false := by
      have hs : (step (flagSkipCfg n) st tickRec0).2.dieSet = false := by
        cases hc : (step (flagSkipCfg n) st tickRec0).2.dieSet
        · rfl
        · rw [step_dieSet, dieCond_iff] at hc
          exact absurd hc.1 (by simp [flagSkipCfg])
      rw [step_die, hs, hd]
      rfl
    have hbad : (step (flagSkipCfg n) st tickRec0).2.badDT = true := by
      rw [step_badDT, flagCond_iff, decodeTick_tickRec0, htl rfl]
      refine ⟨Or.inl rfl, ?_, by decide⟩
      simp only [flagSkipCfg]
      push_cast at hts
      omega
    rw [List.replicate_succ, List.replicate_zero,
      mainLoop_continue _ st tickRec0 [] hd rfl hdie]
    simp only [mainLoop, List.map_cons, List.map_nil, hbad, List.replicate_zero, List.nil_append]
  | succ k ih =>
    intro st hd hts _
    have hle : st.tscount ≤ (flagSkipCfg n).skipdt := by
      simp only [flagSkipCfg]
      push_cast at hts
      omega
    obtain ⟨h1, -, -, -, h5⟩ := step_skip (flagSkipCfg n) st tickRec0 hle
    have hd1 : (step (flagSkipCfg n) st tickRec0).1.die = false := by rw [h5, hd]
    have hts1 : (step (flagSkipCfg n) st tickRec0).1.tscount + (k : Int) = (n : Int) + 1 := by
      rw [step_tscount]
      push_cast at hts
      omega
    have hrec := ih (step (flagSkipCfg n) st tickRec0).1 hd1 hts1
      (fun _ => by rw [step_tlast, decodeTick_tickRec0])
    rw [List.replicate_succ, mainLoop_continue _ st tickRec0 _ hd rfl hd1]
    simp only [List.map_cons, h1]
    rw [hrec]
    rfl

/-- C7: a sample with `tscount <= skipdt` gets no verdict, whatever the
switches: it prints neither `BAD DT!!` nor an error and leaves `had_bad_dt` and
`die` unchanged; so a session from the start with at most `skipdt + 1` samples
(indices `0..skipdt`) is silent. The sample of index `skipdt + 1` is the first
that can get one: under `-f -i n`, `n + 2` zero tick counters give `n + 1`
silent samples and then `BAD DT!!`. With 15, indices 0 to 15 are silent and
index 16 is flagged. -/
theorem no_verdict_in_skip_window :
    (∀ (cfg : Config) (st : State) (r : Record), st.tscount ≤ cfg.skipdt →
      (step cfg st r).2.quiet = true
        ∧ (step cfg st r).1.had_bad_dt = st.had_bad_dt
        ∧ (step cfg st r).1.die = st.die)
    ∧ (∀ (cfg : Config) (g : Nat) (l : Int) (rs : List Record),
        (rs.length : Int) ≤ cfg.skipdt + 1 →
        (mainLoop cfg (fresh g l) rs).1.had_bad_dt = false
          ∧ (mainLoop cfg (fresh g l) rs).1.die = false
          ∧ ∀ rep ∈ (mainLoop cfg (fresh g l) rs).2, rep.quiet = true)
    ∧ (∀ (n : Nat) (g : Nat) (l : Int),
        (mainLoop (flagSkipCfg n) (fresh g l) (List.replicate (n + 2) tickRec0)).2.map
          Report.badDT = List.replicate (n + 1) false ++ [true])
    ∧ (∀ (g : Nat) (l : Int),
        (mainLoop (flagSkipCfg 15) (fresh g l) (List.replicate 17 tickRec0)).2.map
          Report.badDT = List.replicate 16 false ++ [true]) := by
  have part3 : ∀ (n : Nat) (g : Nat) (l : Int),
      (mainLoop (flagSkipCfg n) (fresh g l) (List.replicate (n + 2) tickRec0)).2.map
        Report.badDT = List.replicate (n + 1) false ++ [true] := by
    intro n g l
    exact mainLoop_flag_after_skip n (n + 1) (fresh g l) rfl
      (by simp only [fresh]; push_cast; omega) (fun h => absurd h (Nat.succ_ne_zero n))
  refine ⟨fun cfg st r h => ?_, fun cfg g l rs h => ?_, part3, fun g l => part3 15 g l⟩
  · obtain ⟨h1, h2, h3, h4, h5⟩ := step_skip cfg st r h
    exact ⟨quiet_of_fields h1 h2 h3, h4, h5⟩
  · obtain ⟨a, b, c⟩ := mainLoop_skip cfg rs (fresh g l) rfl (by simp only [fresh]; omega)
    exact ⟨b, a, c⟩

/-- C7 on concrete samples: under `-c -i 2` the third sample of a session is
silent although its tick difference is 0. -/
theorem no_verdict_in_skip_window_witness :
    (step enforceCfg { midState with tscount := 2 } tickRec2).2.quiet = true
      ∧ (mainLoop enforceCfg (fresh 7 0) [tickRec0, tickRec1, tickRec2]).1.had_bad_dt = false
      ∧ (mainLoop enforceCfg (fresh 7 0) [tickRec0, tickRec1, tickRec2]).1.die = false :=
  ⟨(no_verdict_in_skip_window.1 enforceCfg { midState with tscount := 2 } tickRec2
      (by decide)).1,
    (no_verdict_in_skip_window.2.1 enforceCfg 7 0 [tickRec0, tickRec1, tickRec2]
      (by decide)).1,
    (no_verdict_in_skip_window.2.1 enforceCfg 7 0 [tickRec0, tickRec1, tickRec2]
      (by decide)).2.1⟩

/-! ## The first sample -/

/-- With a skip count of zero or more, the first sample of a session gets no
verdict. -/
theorem first_sample_quiet_of_nonneg_skip (cfg : Config) (g : Nat) (l : Int) (r : Record)
    (h : 0 ≤ cfg.skipdt) :
    (step cfg (fresh g l) r).2.quiet = true
      ∧ (step cfg (fresh g l) r).1.had_bad_dt = false
      ∧ (step cfg (fresh g l) r).1.die = false := by
  obtain ⟨h1, h2, h3, h4, h5⟩ := step_skip cfg (fresh g l) r h
  exact ⟨quiet_of_fields h1 h2 h3, h4, h5⟩

/-- The GPS check never fires on the first sample: `had_t` is still 0. -/
theorem first_sample_no_gps_error (cfg : Config) (g : Nat) (l : Int) (r : Record) :
    (step cfg (fresh g l) r).2.gpsErr = false := by
  cases hc : (step cfg (fresh g l) r).2.gpsErr
  · rfl
  · rw [step_gpsErr, gpsCond_iff] at hc
    exact absurd hc.2.1 (by simp [fresh])

/-- C8, the code at the failing input: with `-c -i -1` the first record of a
session is checked against the value `tlast` happens to hold. With `tlast = 0`
and a tick counter of 0 the difference is 0, so `BAD DT!!` is printed,
`had_bad_dt` is set and `die = 1` is executed; and whatever `tlast` holds, one
of the tick counters 0 and 1 is reported on the first record. -/
theorem first_sample_checked_when_skip_negative :
    ((step negSkipCfg (fresh 0 0) tickRec0).2.badDT = true
      ∧ (step negSkipCfg (fresh 0 0) tickRec0).2.dieSet = true
      ∧ (step negSkipCfg (fresh 0 0) tickRec0).1.had_bad_dt = true
      ∧ (step negSkipCfg (fresh 0 0) tickRec0).1.die = true)
    ∧ (∀ (g : Nat) (l : Int), ∃ r : Record,
        (step negSkipCfg (fresh g l) r).2.dieSet = true
          ∧ (step negSkipCfg (fresh g l) r).1.had_bad_dt = true) := by
  refine ⟨by decide, fun g l => ?_⟩
  have key : ∀ r : Record, u64sub (decodeTick r) g ≠ WANT_DT →
      (step negSkipCfg (fresh g l) r).2.dieSet = true
        ∧ (step negSkipCfg (fresh g l) r).1.had_bad_dt = true := by
    intro r hr
    have hlt : negSkipCfg.skipdt < (fresh g l).tscount := by
      show (-1 : Int) < 0
      decide
    have hb : (step negSkipCfg (fresh g l) r).2.badDT = true := by
      rw [step_badDT, flagCond_iff]
      exact ⟨Or.inr rfl, hlt, hr⟩
    refine ⟨?_, ?_⟩
    · rw [step_dieSet, dieCond_iff]
      exact ⟨rfl, hlt, hr⟩
    · rw [step_had_bad_dt, hb, Bool.or_true, Bool.true_or]
  by_cases h0 : u64sub 0 g = WANT_DT
  · refine ⟨tickRecOne, key tickRecOne ?_⟩
    have e : decodeTick tickRecOne = 1 := by decide
    rw [e]
    simp only [u64sub, U64, WANT_DT] at h0 ⊢
    omega
  · refine ⟨tickRec0, key tickRec0 ?_⟩
    rw [decodeTick_tickRec0]
    exact h0

/-! ## Rollover -/

/-- C9: a sample whose GPS seconds decode to 0 gets no GPS error, whatever the
state and the switches: the GPS check leaves `had_bad_dt` as it found it, so
after the iteration `had_bad_dt` is the old value or-ed with the tick verdict
alone. A record reading `001:00:00:00` decodes to 0. -/
theorem rollover_exempt :
    (∀ (cfg : Config) (st : State) (r : Record), gps_to_secs r = 0 →
      (step cfg st r).2.gpsErr = false
        ∧ (∀ hb : Bool, gpsCheck cfg st hb (gps_to_secs r) = hb)
        ∧ (step cfg st r).1.had_bad_dt = (st.had_bad_dt || (step cfg st r).2.badDT))
    ∧ (∀ r : Record,
        (r.bytes.drop 1).take 12 = [48, 48, 49, 58, 48, 48, 58, 48, 48, 58, 48, 48] →
        gps_to_secs r = 0) := by
  constructor
  · intro cfg st r h0
    have hc : gpsCond cfg st (gps_to_secs r) = false := by
      cases hc : gpsCond cfg st (gps_to_secs r)
      · rfl
      · rw [gpsCond_iff] at hc
        exact absurd h0 hc.2.2.2.1
    have he : (step cfg st r).2.gpsErr = false := hc
    refine ⟨he, fun hb => ?_, ?_⟩
    · simp only [gpsCheck, hc]
      rfl
    · rw [step_had_bad_dt, he, Bool.or_false]
  · intro r hr
    rw [r.bytes_eq] at hr
    simp only [List.drop_succ_cons, List.drop_zero, List.take_succ_cons, List.take_zero,
      List.cons.injEq, and_true] at hr
    obtain ⟨h1, h2, h3, -, h5, h6, -, h8, h9, -, h11, h12⟩ := hr
    simp only [gps_to_secs, h1, h2, h3, h5, h6, h8, h9, h11, h12, CH0]
    decide

/-- C9 on the record `tickRec0` (`001:00:00:00`) after the last second of a
year, with `-g`: no GPS error although the difference is -31535999. -/
theorem rollover_exempt_witness :
    gps_to_secs tickRec0 = 0
      ∧ gps_to_secs tickRec0 - yearEndState.last_t = -31535999
      ∧ (step gpsCfg yearEndState tickRec0).2.gpsErr = false
      ∧ (step gpsCfg yearEndState tickRec0).1.had_bad_dt
          = (yearEndState.had_bad_dt || (step gpsCfg yearEndState tickRec0).2.badDT) :=
  ⟨rollover_exempt.2 tickRec0 (by decide), by decide,
    (rollover_exempt.1 gpsCfg yearEndState tickRec0 (by decide)).1,
    (rollover_exempt.1 gpsCfg yearEndState tickRec0 (by decide)).2.2⟩

/-! ## The previous sample -/

/-- C10: after every iteration, whatever it reported, `tlast` is the sample's
tick counter, `last_t` its GPS seconds, `had_t` is set and `tscount` is one
more than before; so the next iteration takes its tick difference against this
sample and its GPS check reads this sample's seconds. -/
theorem step_records_previous (cfg : Config) (st : State) (r : Record) :
    (step cfg st r).1.tlast = decodeTick r
      ∧ (step cfg st r).1.last_t = gps_to_secs r
      ∧ (step cfg st r).1.tscount = st.tscount + 1
      ∧ (step cfg st r).1.had_t = true
      ∧ (step cfg st r).2.t = decodeTick r
      ∧ (step cfg st r).2.this_t = gps_to_secs r
      ∧ ∀ r2 : Record,
          (step cfg (step cfg st r).1 r2).2.dt = u64sub (decodeTick r2) (decodeTick r)
            ∧ ((step cfg (step cfg st r).1 r2).2.gpsErr
                = (cfg.flaggps && decide (st.tscount + 1 > cfg.skipdt)
                    && decide (gps_to_secs r2 ≠ 0)
                    && decide (gps_to_secs r2 - gps_to_secs r ≠ 1))) := by
  refine ⟨rfl, rfl, rfl, rfl, rfl, rfl, fun r2 => ⟨rfl, ?_⟩⟩
  rw [step_gpsErr]
  simp only [gpsCond, step_had_t, step_tscount, step_last_t, Bool.and_true]
  split
  · rename_i h
    rw [h, Bool.true_and]
  · rename_i h
    rw [Bool.not_eq_true] at h
    rw [h, Bool.false_and]

/-! ## Invariants of a session -/

/-- A property of the state that every iteration keeps is kept by the loop. -/
theorem mainLoop_keeps (cfg : Config) (P : State → Prop)
    (hstep : ∀ (st : State) (r : Record), P st → P (step cfg st r).1) :
    ∀ (rs : List Record) (st : State), P st → P (mainLoop cfg st rs).1 := by
  intro rs
  induction rs with
  | nil =>
    intro st h
    exact h
  | cons r rs ih =>
    intro st h
    cases hd : st.die
    · cases ho : cfg.oneshot
      · cases hd1 : (step cfg st r).1.die
        · rw [mainLoop_continue cfg st r rs hd ho hd1]
          exact ih _ (hstep st r h)
        · rw [mainLoop_stop cfg st r rs hd hd1]
          exact hstep st r h
      · rw [mainLoop_oneshot cfg st r rs hd ho]
        exact hstep st r h
    · have e : mainLoop cfg st (r :: rs) = (st, []) := by simp [mainLoop, hd]
      rw [e]
      exact h

theorem step_sticky (cfg : Config) (st : State) (r : Record) (h : st.had_bad_dt = true) :
    (step cfg st r).1.had_bad_dt = true := by
  rw [step_had_bad_dt, h, Bool.true_or, Bool.true_or]

theorem dieSet_imp_badDT (cfg : Config) (st : State) (r : Record)
    (h : (step cfg st r).2.dieSet = true) : (step cfg st r).2.badDT = true := by
  rw [step_dieSet, dieCond_iff] at h
  rw [step_badDT, flagCond_iff]
  exact ⟨Or.inr h.1, h.2⟩

/-- Every iteration keeps "if `die` is set then `had_bad_dt` is set". -/
theorem step_die_imp_bad (cfg : Config) (st : State) (r : Record)
    (h : st.die = true → st.had_bad_dt = true) :
    (step cfg st r).1.die = true → (step cfg st r).1.had_bad_dt = true := by
  intro hd
  rw [step_die, Bool.or_eq_true] at hd
  rcases hd with h1 | h1
  · exact step_sticky cfg st r (h h1)
  · rw [step_had_bad_dt, dieSet_imp_badDT cfg st r h1, Bool.or_true, Bool.true_or]

/-- C11: `had_bad_dt` is sticky. Once set it is still set after any further
sample and at the end of any further run of the loop; it is 0 at the start of
a session; and an iteration can only change it from 0 to 1. -/
theorem had_bad_dt_sticky :
    (∀ (cfg : Config) (st : State) (r : Record), st.had_bad_dt = true →
      (step cfg st r).1.had_bad_dt = true)
    ∧ (∀ (cfg : Config) (st : State) (rs : List Record), st.had_bad_dt = true →
        (mainLoop cfg st rs).1.had_bad_dt = true)
    ∧ (∀ (g : Nat) (l : Int), (fresh g l).had_bad_dt = false)
    ∧ (∀ (cfg : Config) (st : State) (r : Record),
        (step cfg st r).1.had_bad_dt ≠ st.had_bad_dt →
          st.had_bad_dt = false ∧ (step cfg st r).1.had_bad_dt = true) := by
  refine ⟨step_sticky, fun cfg st rs h => ?_, fun _ _ => rfl, fun cfg st r hne => ?_⟩
  · exact mainLoop_keeps cfg (fun s => s.had_bad_dt = true) (fun s r hs => step_sticky cfg s r hs)
      rs st h
  · cases hb : st.had_bad_dt
    · cases hb1 : (step cfg st r).1.had_bad_dt
      · rw [hb, hb1] at hne
        exact absurd rfl hne
      · exact ⟨rfl, rfl⟩
    · rw [step_sticky cfg st r hb, hb] at hne
      exact absurd rfl hne

/-- C11 on concrete samples: with `had_bad_dt` already set, a sample with the
right tick difference and no check enabled leaves it set; and the one change an
iteration makes is from 0 to 1. -/
theorem had_bad_dt_sticky_witness :
    (step gpsCfg { midState with had_bad_dt := true } tickRec4).1.had_bad_dt = true
      ∧ (mainLoop gpsCfg { midState with had_bad_dt := true }
          [tickRec4, tickRec4]).1.had_bad_dt = true
      ∧ (midState.had_bad_dt = false
          ∧ (step flagCfg midState tickRec3).1.had_bad_dt = true) :=
  ⟨had_bad_dt_sticky.1 gpsCfg { midState with had_bad_dt := true } tickRec4 rfl,
    had_bad_dt_sticky.2.1 gpsCfg { midState with had_bad_dt := true } [tickRec4, tickRec4] rfl,
    had_bad_dt_sticky.2.2.2 flagCfg midState tickRec3 (by decide)⟩

/-- C19: an iteration that requests termination also prints `BAD DT!!` and
sets `had_bad_dt`; so in a session from the start, whenever `die` is set
`had_bad_dt` is set too and the final `if(die && had_bad_dt)` warning is
printed. -/
theorem enforced_stop_implies_bad_delta :
    (∀ (cfg : Config) (st : State) (r : Record), (step cfg st r).2.dieSet = true →
      (step cfg st r).2.badDT = true ∧ (step cfg st r).1.had_bad_dt = true)
    ∧ (∀ (cfg : Config) (g : Nat) (l : Int) (rs : List Record),
        (mainLoop cfg (fresh g l) rs).1.die = true →
          (mainLoop cfg (fresh g l) rs).1.had_bad_dt = true
            ∧ summaryWarning (mainLoop cfg (fresh g l) rs).1 = true) := by
  constructor
  · intro cfg st r h
    have hb := dieSet_imp_badDT cfg st r h
    exact ⟨hb, by rw [step_had_bad_dt, hb, Bool.or_true, Bool.true_or]⟩
  · intro cfg g l rs hd
    have hb : (mainLoop cfg (fresh g l) rs).1.had_bad_dt = true :=
      mainLoop_keeps cfg (fun s => s.die = true → s.had_bad_dt = true)
        (fun s r hs => step_die_imp_bad cfg s r hs) rs (fresh g l)
        (fun h => absurd h (by simp [fresh])) hd
    exact ⟨hb, by rw [summaryWarning, hd, hb]; rfl⟩

/-- C19 on the session of four tick counters 0, 20000000, 20000000, 40000005
under `-c -i 2`: it ends with `die`, `had_bad_dt` and the warning. -/
theorem enforced_stop_implies_bad_delta_witness :
    (mainLoop enforceCfg (fresh 7 0) [tickRec0, tickRec1, tickRec2, tickRec3]).1.die = true
      ∧ (mainLoop enforceCfg (fresh 7 0)
          [tickRec0, tickRec1, tickRec2, tickRec3]).1.had_bad_dt = true
      ∧ summaryWarning
          (mainLoop enforceCfg (fresh 7 0) [tickRec0, tickRec1, tickRec2, tickRec3]).1 = true
      ∧ (step enforceCfg midState tickRec3).2.badDT = true :=
  ⟨by decide,
    (enforced_stop_implies_bad_delta.2 enforceCfg 7 0 [tickRec0, tickRec1, tickRec2, tickRec3]
      (by decide)).1,
    (enforced_stop_implies_bad_delta.2 enforceCfg 7 0 [tickRec0, tickRec1, tickRec2, tickRec3]
      (by decide)).2,
    (enforced_stop_implies_bad_delta.1 enforceCfg midState tickRec3 (by decide)).1⟩

/-! ## Round trip of the tick counter -/


theorem beBytes_eight (v : Nat) :
    beBytes 8 v =
      [((v / 256 / 256 / 256 / 256 / 256 / 256 / 256 % 256 : Nat) : Int),
       ((v / 256 / 256 / 256 / 256 / 256 / 256 % 256 : Nat) : Int),
       ((v / 256 / 256 / 256 / 256 / 256 % 256 : Nat) : Int),
       ((v / 256 / 256 / 256 / 256 % 256 : Nat) : Int),
       ((v / 256 / 256 / 256 % 256 : Nat) : Int),
       ((v / 256 / 256 % 256 : Nat) : Int),
       ((v / 256 % 256 : Nat) : Int),
       ((v % 256 : Nat) : Int)] := rfl

theorem ucharOf_natCast_mod (n : Nat) : ucharOf ((n % 256 : Nat) : Int) = n % 256 := by
  unfold ucharOf
  omega

theorem tickField_eq (r : Record) :
    r.bytes.drop (QUALPOS + 1) = [r.get 14, r.get 15, r.get 16, r.get 17, r.get 18,
      r.get 19, r.get 20, r.get 21] := by
  conv_lhs => rw [r.bytes_eq]
  rfl

/-- The big-endian bytes of the decoded counter are the tick bytes. -/
theorem beBytes_decodeTick (r : Record) :
    (beBytes 8 (decodeTick r)).map ucharOf = (r.bytes.drop (QUALPOS + 1)).map ucharOf := by
  have h14 := ucharOf_lt (r.get 14)
  have h15 := ucharOf_lt (r.get 15)
  have h16 := ucharOf_lt (r.get 16)
  have h17 := ucharOf_lt (r.get 17)
  have h18 := ucharOf_lt (r.get 18)
  have h19 := ucharOf_lt (r.get 19)
  have h20 := ucharOf_lt (r.get 20)
  have h21 := ucharOf_lt (r.get 21)
  have hd := decodeTick_eq r
  norm_num at hd
  rw [tickField_eq, beBytes_eight]
  simp only [List.map_cons, List.map_nil, ucharOf_natCast_mod, List.cons.injEq, and_true]
  refine ⟨?_, ?_, ?_, ?_, ?_, ?_, ?_, ?_⟩ <;> omega

/-- A record whose tick bytes are the big-endian bytes of `v` decodes to `v`. -/
theorem decodeTick_of_field (r : Record) (v : Nat) (hv : v < U64)
    (h : (r.bytes.drop (QUALPOS + 1)).map ucharOf = (beBytes 8 v).map ucharOf) :
    decodeTick r = v := by
  have hd := decodeTick_eq r
  norm_num at hd
  rw [tickField_eq, beBytes_eight] at h
  simp only [List.map_cons, List.map_nil, ucharOf_natCast_mod, List.cons.injEq, and_true] at h
  obtain ⟨e14, e15, e16, e17, e18, e19, e20, e21⟩ := h
  rw [e14, e15, e16, e17, e18, e19, e20, e21] at hd
  simp only [U64] at hv
  omega

theorem withTick_field (r : Record) (v : Nat) :
    (withTick r v).bytes.drop (QUALPOS + 1) = beBytes 8 v := by
  show (r.bytes.take (QUALPOS + 1) ++ beBytes 8 v).drop (QUALPOS + 1) = beBytes 8 v
  rw [r.bytes_eq]
  rfl

theorem withTick_head (r : Record) (v : Nat) :
    (withTick r v).bytes.take (QUALPOS + 1) = r.bytes.take (QUALPOS + 1) := by
  show (r.bytes.take (QUALPOS + 1) ++ beBytes 8 v).take (QUALPOS + 1) = _
  rw [r.bytes_eq]
  rfl

theorem decodeTick_withTick (r : Record) (v : Nat) (hv : v < U64) :
    decodeTick (withTick r v) = v :=
  decodeTick_of_field _ v hv (by rw [withTick_field])


theorem withQuality_bytes (r : Record) (q : Int) (hq : -128 ≤ q ∧ q ≤ 255) :
    (withQuality r q hq).bytes =
      [r.get 0, r.get 1, r.get 2, r.get 3, r.get 4, r.get 5, r.get 6, r.get 7,
        r.get 8, r.get 9, r.get 10, r.get 11, r.get 12, q, r.get 14, r.get 15,
        r.get 16, r.get 17, r.get 18, r.get 19, r.get 20, r.get 21] := by
  show r.bytes.take QUALPOS ++ q :: r.bytes.drop (QUALPOS + 1) = _
  rw [r.bytes_eq]
  rfl

/-- The quality character has no part in the tick counter: nine characters
from offset 13 on would not determine the counter one to one. -/
theorem decodeTick_withQuality (r : Record) (q : Int) (hq : -128 ≤ q ∧ q ≤ 255) :
    decodeTick (withQuality r q hq) = decodeTick r ∧ (withQuality r q hq).get QUALPOS = q := by
  have e : ∀ i, (withQuality r q hq).get i = (withQuality r q hq).bytes.getD i 0 :=
    fun _ => rfl
  constructor
  · rw [decodeTick_eq, decodeTick_eq]
    simp only [e, withQuality_bytes]
    rfl
  · rw [e, withQuality_bytes]
    rfl

/-- C12: the tick difference of an iteration is `t - tlast` modulo `2^64`:
for a previous counter below `2^64` it is `t + 2^64 - tlast` when `t < tlast`
and `t - tlast` otherwise. A new counter equal to `(tlast + 20000000) mod 2^64`
has difference exactly 20000000 and is neither flagged nor fatal; such a record
exists for every previous counter. -/
theorem tick_delta_is_modular :
    (∀ (cfg : Config) (st : State) (r : Record),
      (((step cfg st r).2.dt : Nat) : Int)
        = ((decodeTick r : Int) - (st.tlast : Int)) % 18446744073709551616)
    ∧ (∀ (cfg : Config) (st : State) (r : Record), st.tlast < U64 →
        decodeTick r < st.tlast →
        (step cfg st r).2.dt = decodeTick r + U64 - st.tlast)
    ∧ (∀ (cfg : Config) (st : State) (r : Record), st.tlast < U64 →
        st.tlast ≤ decodeTick r →
        (step cfg st r).2.dt = decodeTick r - st.tlast)
    ∧ (∀ (cfg : Config) (st : State) (r : Record), st.tlast < U64 →
        decodeTick r = (st.tlast + 20000000) % U64 →
        (step cfg st r).2.dt = 20000000 ∧ (step cfg st r).2.badDT = false
          ∧ (step cfg st r).2.dieSet = false)
    ∧ (∀ (p : Nat) (r0 : Record), ∃ r : Record,
        decodeTick r = (p + 20000000) % U64
          ∧ r.bytes.take (QUALPOS + 1) = r0.bytes.take (QUALPOS + 1)) := by
  refine ⟨fun cfg st r => u64sub_eq_emod _ _, fun cfg st r hp hlt => ?_,
    fun cfg st r hp hle => ?_, fun cfg st r hp ht => ?_, fun p r0 => ?_⟩
  · have ht := decodeTick_lt r
    rw [step_dt]
    simp only [u64sub, U64] at *
    omega
  · have ht := decodeTick_lt r
    rw [step_dt]
    simp only [u64sub, U64] at *
    omega
  · have hdt : u64sub (decodeTick r) st.tlast = 20000000 := by
      rw [ht]
      simp only [u64sub, U64] at *
      omega
    refine ⟨hdt, ?_, ?_⟩
    · cases hc : (step cfg st r).2.badDT
      · rfl
      · rw [step_badDT, flagCond_iff, hdt] at hc
        exact absurd rfl hc.2.2
    · cases hc : (step cfg st r).2.dieSet
      · rfl
      · rw [step_dieSet, dieCond_iff, hdt] at hc
        exact absurd rfl hc.2.2
  · refine ⟨withTick r0 ((p + 20000000) % U64), ?_, withTick_head r0 _⟩
    exact decodeTick_withTick r0 _ (Nat.mod_lt _ (by decide))

/-- C12 on a counter that wraps: previous `2^64 - 10000000`, new 10000000. -/
theorem tick_delta_is_modular_witness :
    decodeTick wrapRec < wrapState.tlast
      ∧ (step enforceCfg wrapState wrapRec).2.dt = decodeTick wrapRec + U64 - wrapState.tlast
      ∧ (step enforceCfg wrapState wrapRec).2.dt = 20000000
      ∧ (step enforceCfg wrapState wrapRec).2.badDT = false
      ∧ (step enforceCfg wrapState wrapRec).2.dieSet = false
      ∧ (step enforceCfg midState tickRec3).2.dt = decodeTick tickRec3 - midState.tlast :=
  ⟨by decide,
    tick_delta_is_modular.2.1 enforceCfg wrapState wrapRec (by decide) (by decide),
    (tick_delta_is_modular.2.2.2.1 enforceCfg wrapState wrapRec (by decide) (by decide)).1,
    (tick_delta_is_modular.2.2.2.1 enforceCfg wrapState wrapRec (by decide) (by decide)).2.1,
    (tick_delta_is_modular.2.2.2.1 enforceCfg wrapState wrapRec (by decide) (by decide)).2.2,
    tick_delta_is_modular.2.2.1 enforceCfg midState tickRec3 (by decide) (by decide)⟩

/-- C13: the tick field of a record is the 8 characters after the quality
character. A record whose tick field holds the big-endian bytes of a 64-bit
value `v` decodes to `v`, and every such value is the counter of some record;
the bytes of the decoded counter are the field again; and two records whose
tick fields differ as bytes decode to different counters. -/
theorem tick_roundtrip_injective :
    (∀ r : Record, (r.bytes.drop (QUALPOS + 1)).length = 8)
    ∧ (∀ (r : Record) (v : Nat), v < U64 →
        (r.bytes.drop (QUALPOS + 1)).map ucharOf = (beBytes 8 v).map ucharOf →
        decodeTick r = v)
    ∧ (∀ (r : Record) (v : Nat), v < U64 →
        (withTick r v).bytes.drop (QUALPOS + 1) = beBytes 8 v
          ∧ decodeTick (withTick r v) = v)
    ∧ (∀ r : Record,
        (beBytes 8 (decodeTick r)).map ucharOf = (r.bytes.drop (QUALPOS + 1)).map ucharOf)
    ∧ (∀ r1 r2 : Record,
        (r1.bytes.drop (QUALPOS + 1)).map ucharOf ≠ (r2.bytes.drop (QUALPOS + 1)).map ucharOf →
        decodeTick r1 ≠ decodeTick r2) := by
  refine ⟨fun r => ?_, decodeTick_of_field,
    fun r v hv => ⟨withTick_field r v, decodeTick_withTick r v hv⟩, beBytes_decodeTick,
    fun r1 r2 hne heq => ?_⟩
  · rw [tickField_eq]
    rfl
  · apply hne
    rw [← beBytes_decodeTick r1, ← beBytes_decodeTick r2, heq]

/-- C13 on concrete records: 40000005 survives the round trip, and the records
`tickRec3` and `tickRec4`, whose last tick byte differs, decode differently. -/
theorem tick_roundtrip_injective_witness :
    decodeTick tickRec3 = 40000005
      ∧ decodeTick (withTick tickRec0 40000005) = 40000005
      ∧ decodeTick tickRec3 ≠ decodeTick tickRec4 :=
  ⟨tick_roundtrip_injective.2.1 tickRec3 40000005 (by decide) (by decide),
    (tick_roundtrip_injective.2.2.1 tickRec0 40000005 (by decide)).2,
    tick_roundtrip_injective.2.2.2.2 tickRec3 tickRec4 (by decide)⟩

/-! ## The format test and the quality character -/

theorem ucharOf_eq_iff (r : Record) (i : Nat) (k : Nat) (hk : k < 128) :
    ucharOf (r.get i) = k ↔ r.get i = (k : Int) := by
  have h := r.get_range i
  unfold ucharOf
  omega

theorem badFormat_iff (r : Record) :
    badFormat r = true ↔ (r.get 0 ≠ 1 ∨ r.get 4 ≠ 58 ∨ r.get 7 ≠ 58 ∨ r.get 10 ≠ 58) := by
  simp [badFormat, SOH, COL, or_assoc]

/-- C14: the format error is printed exactly when the character at offset 0
is not `SOH` (byte 0x01) or one of the characters at offsets 4, 7 and 10 is not
`':'` (byte 0x3a); two records that agree at these four offsets get the same
outcome, whatever their other characters, the state and the switches. -/
theorem format_error_iff :
    (∀ (cfg : Config) (st : State) (r : Record),
      (step cfg st r).2.formatErr = true ↔
        (r.get 0 ≠ 1 ∨ r.get 4 ≠ 58 ∨ r.get 7 ≠ 58 ∨ r.get 10 ≠ 58))
    ∧ (∀ (cfg : Config) (st : State) (r : Record),
        (step cfg st r).2.formatErr = true ↔
          (ucharOf (r.get 0) ≠ 1 ∨ ucharOf (r.get 4) ≠ 58 ∨ ucharOf (r.get 7) ≠ 58
            ∨ ucharOf (r.get 10) ≠ 58))
    ∧ (∀ (cfg1 cfg2 : Config) (st1 st2 : State) (r1 r2 : Record),
        r1.get 0 = r2.get 0 → r1.get 4 = r2.get 4 → r1.get 7 = r2.get 7 →
        r1.get 10 = r2.get 10 →
        (step cfg1 st1 r1).2.formatErr = (step cfg2 st2 r2).2.formatErr) := by
  refine ⟨fun cfg st r => badFormat_iff r, fun cfg st r => ?_, ?_⟩
  · rw [step_formatErr, badFormat_iff]
    have e0 := ucharOf_eq_iff r 0 1 (by decide)
    have e4 := ucharOf_eq_iff r 4 58 (by decide)
    have e7 := ucharOf_eq_iff r 7 58 (by decide)
    have e10 := ucharOf_eq_iff r 10 58 (by decide)
    simp only [Nat.cast_ofNat, Nat.cast_one] at e0 e4 e7 e10
    rw [Ne, Ne, Ne, Ne, Ne, Ne, Ne, Ne, e0, e4, e7, e10]
  · intro cfg1 cfg2 st1 st2 r1 r2 h0 h4 h7 h10
    simp only [step_formatErr, badFormat, h0, h4, h7, h10]

/-- C14 on concrete records: a well-formed record and one with other tick
bytes agree; breaking any one of the offsets 0, 4, 7, 10 gives the error. -/
theorem format_error_iff_witness :
    (step enforceCfg midState tickRec0).2.formatErr
        = (step gpsCfg yearEndState calRec0).2.formatErr
      ∧ (step enforceCfg midState tickRec0).2.formatErr = false
      ∧ (step enforceCfg midState badAt0).2.formatErr = true
      ∧ (step enforceCfg midState badAt4).2.formatErr = true
      ∧ (step enforceCfg midState badAt7).2.formatErr = true
      ∧ (step enforceCfg midState badAt10).2.formatErr = true :=
  ⟨format_error_iff.2.2 enforceCfg gpsCfg midState yearEndState tickRec0 calRec0
      (by decide) (by decide) (by decide) (by decide),
    by decide,
    (format_error_iff.1 enforceCfg midState badAt0).2 (Or.inl (by decide)),
    (format_error_iff.1 enforceCfg midState badAt4).2 (Or.inr (Or.inl (by decide))),
    (format_error_iff.1 enforceCfg midState badAt7).2 (Or.inr (Or.inr (Or.inl (by decide)))),
    (format_error_iff.1 enforceCfg midState badAt10).2
      (Or.inr (Or.inr (Or.inr (by decide))))⟩

/-- C18: the quality printed by an iteration is `classify` of the character at
offset 13 alone. `' '`, `'.'`, `'*'`, `'#'`, `'?'` give five different classes,
every other character gives `unknown` and only those do; both `char` readings
of a byte from 128 up are `unknown`. -/
theorem quality_classification :
    (classify 32 = Quality.exclnt ∧ classify 46 = Quality.vgood ∧ classify 42 = Quality.good
      ∧ classify 35 = Quality.fair ∧ classify 63 = Quality.poor)
    ∧ [Quality.exclnt, Quality.vgood, Quality.good, Quality.fair, Quality.poor,
        Quality.unknown].Nodup
    ∧ (∀ c : Int, classify c = Quality.unknown ↔
        (c ≠ 32 ∧ c ≠ 46 ∧ c ≠ 42 ∧ c ≠ 35 ∧ c ≠ 63))
    ∧ (∀ (cfg : Config) (st : State) (r : Record),
        (step cfg st r).2.quality = classify (r.get QUALPOS))
    ∧ (∀ (cfg1 cfg2 : Config) (st1 st2 : State) (r1 r2 : Record),
        r1.get QUALPOS = r2.get QUALPOS →
        (step cfg1 st1 r1).2.quality = (step cfg2 st2 r2).2.quality)
    ∧ (∀ b : Int, 128 ≤ b → b ≤ 255 →
        classify b = Quality.unknown ∧ classify (b - 256) = Quality.unknown) := by
  have hunk : ∀ c : Int, classify c = Quality.unknown ↔
      (c ≠ 32 ∧ c ≠ 46 ∧ c ≠ 42 ∧ c ≠ 35 ∧ c ≠ 63) := by
    intro c
    unfold classify
    constructor
    · intro h
      split_ifs at h with h1 h2 h3 h4 h5
      exact ⟨h1, h2, h3, h4, h5⟩
    · rintro ⟨h1, h2, h3, h4, h5⟩
      rw [if_neg h1, if_neg h2, if_neg h3, if_neg h4, if_neg h5]
  refine ⟨by decide, by decide, hunk, fun _ _ _ => rfl, ?_, fun b h1 h2 => ?_⟩
  · intro cfg1 cfg2 st1 st2 r1 r2 h
    show classify (r1.get QUALPOS) = classify (r2.get QUALPOS)
    rw [h]
  · constructor
    · rw [hunk]
      omega
    · rw [hunk]
      omega

/-- C18 on two records that differ in their tick bytes only. -/
theorem quality_classification_witness :
    (step enforceCfg midState tickRec0).2.quality
        = (step gpsCfg yearEndState tickRec3).2.quality
      ∧ classify 200 = Quality.unknown ∧ classify (200 - 256) = Quality.unknown :=
  ⟨quality_classification.2.2.2.2.1 enforceCfg gpsCfg midState yearEndState tickRec0 tickRec3
      (by decide),
    quality_classification.2.2.2.2.2 200 (by decide) (by decide)⟩

/-! ## Calendar seconds of a digit string -/

/-- When the nine calendar characters are digits reading `d`, `h`, `m`, `s`,
`gps_to_secs` is `(d-1)*86400 + h*3600 + m*60 + s`, with `h`, `m`, `s` at most
99 and `d` at most 999. -/
theorem gps_to_secs_spec {r : Record} {d h m s : Nat}
    (hc : specCalendar r = some (d, h, m, s)) :
    gps_to_secs r = ((d : Int) - 1) * 86400 + (h : Int) * 3600 + (m : Int) * 60 + (s : Int)
      ∧ d ≤ 999 ∧ h ≤ 99 ∧ m ≤ 99 ∧ s ≤ 99 := by
  obtain ⟨h1, h2, h3, h4⟩ := specCalendar_some hc
  obtain ⟨e1, b1⟩ := specNumber_three h1
  obtain ⟨e2, b2⟩ := specNumber_two h2
  obtain ⟨e3, b3⟩ := specNumber_two h3
  obtain ⟨e4, b4⟩ := specNumber_two h4
  refine ⟨?_, b1, b2, b3, b4⟩
  unfold gps_to_secs
  rw [e1, e2, e3]
  omega

/-- C16 as stated fails: the record `tickRec1` reads `001:00:00:01`, day of
year 001, and decodes to 1, not 0. -/
theorem day_one_is_zero_counterexample :
    specCalendar tickRec1 = some (1, 0, 0, 1) ∧ gps_to_secs tickRec1 = 1
      ∧ gps_to_secs tickRec1 ≠ 0 := by
  decide

/-- C16, amended: with day of year 001 and digits in the hour, minute and
second positions, `gps_to_secs` is the second of the day,
`h*3600 + m*60 + s`; it is 0 exactly when hour, minute and second are 00. -/
theorem day_one_is_second_of_day (r : Record) (h m s : Nat)
    (hc : specCalendar r = some (1, h, m, s)) :
    gps_to_secs r = (h : Int) * 3600 + (m : Int) * 60 + (s : Int)
      ∧ (gps_to_secs r = 0 ↔ (h = 0 ∧ m = 0 ∧ s = 0)) := by
  have e := (gps_to_secs_spec hc).1
  push_cast at e
  constructor
  · omega
  · omega

/-- C16, amended, on `001:00:00:00` (0) and `001:00:00:01` (1). -/
theorem day_one_is_second_of_day_witness :
    gps_to_secs tickRec0 = 0 ∧ gps_to_secs tickRec1 = ((0 : Nat) : Int) * 3600
      + ((0 : Nat) : Int) * 60 + ((1 : Nat) : Int) :=
  ⟨(day_one_is_second_of_day tickRec0 0 0 0 (by decide)).2.2 ⟨rfl, rfl, rfl⟩,
    (day_one_is_second_of_day tickRec1 0 0 1 (by decide)).1⟩

/-- C17 as stated fails: the record `dayZeroRec` has digits in all calendar
positions (`000:00:00:00`) and decodes to -86400. -/
theorem digits_nonneg_counterexample :
    specCalendar dayZeroRec = some (0, 0, 0, 0) ∧ gps_to_secs dayZeroRec = -86400
      ∧ ¬ (0 ≤ gps_to_secs dayZeroRec) := by
  decide

/-- C17, amended: with digits in all calendar positions and a day of year of
at least 001, `gps_to_secs` is non-negative; with any digits it is at least
-86400. -/
theorem digits_nonneg_from_day_one (r : Record) (d h m s : Nat)
    (hc : specCalendar r = some (d, h, m, s)) :
    (1 ≤ d → 0 ≤ gps_to_secs r) ∧ -86400 ≤ gps_to_secs r := by
  have e := (gps_to_secs_spec hc).1
  constructor
  · intro hd
    omega
  · omega

/-- C17, amended, on the record `lastSecondRec` (`365:23:59:59`). -/
theorem digits_nonneg_from_day_one_witness :
    0 ≤ gps_to_secs lastSecondRec ∧ -86400 ≤ gps_to_secs dayZeroRec :=
  ⟨(digits_nonneg_from_day_one lastSecondRec 365 23 59 59 (by decide)).1 (by decide),
    (digits_nonneg_from_day_one dayZeroRec 0 0 0 0 (by decide)).2⟩

/-! ## The GPS check over successive seconds -/

theorem gpsCond_delta_one (cfg : Config) (st : State) (this_t : Int)
    (h : this_t - st.last_t = 1) : gpsCond cfg st this_t = false := by
  cases hc : gpsCond cfg st this_t
  · rfl
  · rw [gpsCond_iff] at hc
    exact absurd h hc.2.2.2.2

theorem gpsCond_zero (cfg : Config) (st : State) : gpsCond cfg st 0 = false := by
  cases hc : gpsCond cfg st 0
  · rfl
  · rw [gpsCond_iff] at hc
    exact absurd rfl hc.2.2.2.1

theorem gpsCond_no_previous (cfg : Config) (st : State) (this_t : Int)
    (h : st.had_t = false) : gpsCond cfg st this_t = false := by
  cases hc : gpsCond cfg st this_t
  · rfl
  · rw [gpsCond_iff, h] at hc
    exact absurd hc.2.1 (by decide)

/-- The reports of the loop are the first reports of `feed`. -/
theorem mainLoop_reports_initial (cfg : Config) :
    ∀ (rs : List Record) (st : State), (mainLoop cfg st rs).2 <+: (feed cfg st rs).2 := by
  intro rs
  induction rs with
  | nil =>
    intro st
    exact List.prefix_refl _
  | cons r rs ih =>
    intro st
    cases hd : st.die
    · cases ho : cfg.oneshot
      · cases hd1 : (step cfg st r).1.die
        · rw [mainLoop_continue cfg st r rs hd ho hd1]
          exact (List.prefix_cons_inj _).2 (ih _)
        · rw [mainLoop_stop cfg st r rs hd hd1]
          exact (List.prefix_cons_inj _).2 List.nil_prefix
      · rw [mainLoop_oneshot cfg st r rs hd ho]
        exact (List.prefix_cons_inj _).2 List.nil_prefix
    · have e : mainLoop cfg st (r :: rs) = (st, []) := by simp [mainLoop, hd]
      rw [e]
      exact List.nil_prefix

/-- C15: samples whose GPS seconds are 100, 101, 102, 0, 1, in this order from
the start of a session, get no GPS error, whatever the switches, the skip count
and the tick counters: neither when all five are checked (`feed`) nor in the
loop, which may stop earlier. The sample with value 0 becomes the previous
sample (`last_t = 0`), so the last one has difference 1. -/
theorem calendar_scenario_no_violation (cfg : Config) (g : Nat) (l : Int)
    (r1 r2 r3 r4 r5 : Record)
    (h1 : gps_to_secs r1 = 100) (h2 : gps_to_secs r2 = 101) (h3 : gps_to_secs r3 = 102)
    (h4 : gps_to_secs r4 = 0) (h5 : gps_to_secs r5 = 1) :
    (feed cfg (fresh g l) [r1, r2, r3, r4, r5]).2.map Report.gpsErr
        = [false, false, false, false, false]
      ∧ (∀ rep ∈ (mainLoop cfg (fresh g l) [r1, r2, r3, r4, r5]).2, rep.gpsErr = false)
      ∧ (feed cfg (fresh g l) [r1, r2, r3, r4]).1.last_t = 0
      ∧ gps_to_secs r5 - (feed cfg (fresh g l) [r1, r2, r3, r4]).1.last_t = 1 := by
  have hfeed : (feed cfg (fresh g l) [r1, r2, r3, r4, r5]).2.map Report.gpsErr
      = [false, false, false, false, false] := by
    simp only [feed, List.map_cons, List.map_nil, step_gpsErr, step_last_t, h1, h2, h3, h4, h5]
    rw [gpsCond_no_previous cfg (fresh g l) 100 rfl, gpsCond_delta_one cfg _ 101 (by
      rw [step_last_t, h1]; rfl), gpsCond_delta_one cfg _ 102 (by rw [step_last_t, h2]; rfl),
      gpsCond_zero, gpsCond_delta_one cfg _ 1 (by rw [step_last_t, h4]; rfl)]
  have hl : (feed cfg (fresh g l) [r1, r2, r3, r4]).1.last_t = 0 := by
    simp only [feed, step_last_t, h4]
  refine ⟨hfeed, fun rep hrep => ?_, hl, by rw [hl, h5]; rfl⟩
  have hm : rep ∈ (feed cfg (fresh g l) [r1, r2, r3, r4, r5]).2 :=
    List.IsPrefix.mem hrep (mainLoop_reports_initial cfg _ _)
  have hm2 : rep.gpsErr ∈ (feed cfg (fresh g l) [r1, r2, r3, r4, r5]).2.map Report.gpsErr :=
    List.mem_map_of_mem _ hm
  rw [hfeed] at hm2
  simpa using hm2

/-- C15 on five concrete records under `-g -i 0`, where the GPS check is on
from the second sample. -/
theorem calendar_scenario_no_violation_witness :
    (feed gpsCfg0 (fresh 0 0) [calRec100, calRec101, calRec102, calRec0, calRec1]).2.map
        Report.gpsErr = [false, false, false, false, false]
      ∧ (feed gpsCfg0 (fresh 0 0) [calRec100, calRec101, calRec102, calRec0]).1.last_t = 0
      ∧ (feed gpsCfg0 (fresh 0 0) [calRec100, calRec101, calRec102, calRec0, calRec2]).2.map
        Report.gpsErr = [false, false, false, false, true] :=
  ⟨(calendar_scenario_no_violation gpsCfg0 0 0 calRec100 calRec101 calRec102 calRec0 calRec1
      (by decide) (by decide) (by decide) (by decide) (by decide)).1,
    (calendar_scenario_no_violation gpsCfg0 0 0 calRec100 calRec101 calRec102 calRec0 calRec1
      (by decide) (by decide) (by decide) (by decide) (by decide)).2.2.1,
    by decide⟩

/-! ## One second later -/

/-- C20: when a record reads day `d`, hour `h`, minute `m` and second `s` in
digits, with hour at most 23 and minute and second at most 59, a record that
reads the next calendar second (carrying into minute, hour and day) decodes to
exactly one more, so taken right after it, it passes the GPS check; and
`gps_to_secs` is strictly increasing in calendar order on such records. The
day needs no bound beyond its three digits. -/
theorem next_second_adds_one :
    (∀ (r r2 : Record) (c : Nat × Nat × Nat × Nat), specCalendar r = some c →
      timeInRange c → specCalendar r2 = some (nextSecond c) →
      gps_to_secs r2 = gps_to_secs r + 1)
    ∧ (∀ (r1 r2 : Record) (c1 c2 : Nat × Nat × Nat × Nat), specCalendar r1 = some c1 →
        specCalendar r2 = some c2 → timeInRange c1 → timeInRange c2 → calLt c1 c2 →
        gps_to_secs r1 < gps_to_secs r2)
    ∧ (∀ (cfg : Config) (st : State) (r r2 : Record) (c : Nat × Nat × Nat × Nat),
        specCalendar r = some c → timeInRange c → specCalendar r2 = some (nextSecond c) →
        (step cfg (step cfg st r).1 r2).2.gpsErr = false) := by
  have key : ∀ (r r2 : Record) (c : Nat × Nat × Nat × Nat), specCalendar r = some c →
      timeInRange c → specCalendar r2 = some (nextSecond c) →
      gps_to_secs r2 = gps_to_secs r + 1 := by
    intro r r2 c hc hr hn
    obtain ⟨d, h, m, s⟩ := c
    obtain ⟨hh, hm, hs⟩ := hr
    simp only at hh hm hs
    have e := (gps_to_secs_spec hc).1
    unfold nextSecond at hn
    simp only at hn
    split_ifs at hn with i1 i2 i3
    · have e2 := (gps_to_secs_spec hn).1
      push_cast at e2
      omega
    · have e2 := (gps_to_secs_spec hn).1
      push_cast at e2
      omega
    · have e2 := (gps_to_secs_spec hn).1
      push_cast at e2
      omega
    · have e2 := (gps_to_secs_spec hn).1
      push_cast at e2
      omega
  refine ⟨key, ?_, ?_⟩
  · intro r1 r2 c1 c2 hc1 hc2 hr1 hr2 hlt
    obtain ⟨d1, h1, m1, s1⟩ := c1
    obtain ⟨d2, h2, m2, s2⟩ := c2
    obtain ⟨a1, a2, a3⟩ := hr1
    obtain ⟨b1, b2, b3⟩ := hr2
    simp only at a1 a2 a3 b1 b2 b3
    have e1 := (gps_to_secs_spec hc1).1
    have e2 := (gps_to_secs_spec hc2).1
    unfold calLt at hlt
    simp only at hlt
    omega
  · intro cfg st r r2 c hc hr hn
    rw [step_gpsErr]
    apply gpsCond_delta_one
    rw [step_last_t, key r r2 c hc hr hn]
    omega

/-- C20 on the carry into the day: `365:23:59:59` is followed by
`366:00:00:00`, one second later; and `001:00:00:01` comes before
`001:00:01:40`. -/
theorem next_second_adds_one_witness :
    gps_to_secs day366Rec = gps_to_secs lastSecondRec + 1
      ∧ gps_to_secs tickRec1 < gps_to_secs calRec100
      ∧ (step gpsCfg0 (step gpsCfg0 midState lastSecondRec).1 day366Rec).2.gpsErr = false :=
  ⟨next_second_adds_one.1 lastSecondRec day366Rec (365, 23, 59, 59) (by decide)
      ⟨by decide, by decide, by decide⟩ (by decide),
    next_second_adds_one.2.1 tickRec1 calRec100 (1, 0, 0, 1) (1, 0, 1, 40) (by decide)
      (by decide) ⟨by decide, by decide, by decide⟩ ⟨by decide, by decide, by decide⟩
      (Or.inr ⟨rfl, Or.inr ⟨rfl, Or.inl (by decide)⟩⟩),
    next_second_adds_one.2.2 gpsCfg0 midState lastSecondRec day366Rec (365, 23, 59, 59)
      (by decide) ⟨by decide, by decide, by decide⟩ (by decide)⟩

end ReadGps
